import Mathlib

/-!
# Wall potential evaluator (EvaluatorWalls.h)

A shallow embedding of `libhoomd/computes/EvaluatorWalls.h`.

* `Scalar` is the exact rational field: arithmetic is exact, rounding is not modelled.
* The header `WallData.h` (wall types, their constructors, `vecInsPtToWall`) is not part of
  the sources; it is a parameter `WallData` of every definition.
* The template parameter `evaluator` is a parameter `PairEvaluator`.
* Fixed-capacity C arrays are functions on `Fin capacity`; an access with an index at or
  beyond the capacity makes the embedded function return `none`.
* The in/out reference parameters `F`, `energy`, `virial` are inputs of the embedded function
  and fields of its result.
* `Outputs.calls` is a ghost record of the calls made on the potential evaluator.
* Counts are natural numbers; the conversion of a python length to `unsigned int` in
  `make_wall_field_params` is the reduction modulo 2^32.
* The reset and the loop body are embedded a second time over an abstract scalar arithmetic
  (`wallBodyIn`), instantiated with exact arithmetic, where it agrees with the first
  embedding (`evalOneWallIn_exact`), and with IEEE-754 binary64 (`doubleArith`), to show
  where a statement depends on exact arithmetic.
-/

namespace Hoomd

/-- Scalar of HOOMDMath.h, in exact arithmetic. -/
abbrev Scalar := ℚ

/-- Scalar3 of HOOMDMath.h: three scalars. -/
structure Scalar3 where
  x : Scalar
  y : Scalar
  z : Scalar
deriving DecidableEq

/-- Template vec3 of VectorMath.h at Scalar. -/
structure vec3 where
  x : Scalar
  y : Scalar
  z : Scalar
deriving DecidableEq

/-- Conversion vec_to_scalar3 of VectorMath.h. -/
def vec_to_scalar3 (a : vec3) : Scalar3 := ⟨a.x, a.y, a.z⟩

/-- Conversion constructor vec3<Scalar>(Scalar3). -/
def vec3.ofScalar3 (a : Scalar3) : vec3 := ⟨a.x, a.y, a.z⟩

/-- Unary minus on vec3 (VectorMath.h). -/
instance : Neg vec3 := ⟨fun a => ⟨-a.x, -a.y, -a.z⟩⟩

/-- Unary minus on Scalar3. -/
instance : Neg Scalar3 := ⟨fun a => ⟨-a.x, -a.y, -a.z⟩⟩

/-- Component-wise sum, as used by `F += ...`. -/
instance : Add Scalar3 := ⟨fun a b => ⟨a.x + b.x, a.y + b.y, a.z + b.z⟩⟩

/-- Product Scalar3 * Scalar. -/
instance : HMul Scalar3 Scalar Scalar3 := ⟨fun a s => ⟨a.x * s, a.y * s, a.z * s⟩⟩

/-- Dot product of HOOMDMath.h. -/
def dot (a b : Scalar3) : Scalar := a.x * b.x + a.y * b.y + a.z * b.z

/-- Capacity MAX_N_SWALLS. -/
abbrev MAX_N_SWALLS : Nat := 20

/-- Capacity MAX_N_CWALLS. -/
abbrev MAX_N_CWALLS : Nat := 20

/-- Capacity MAX_N_PWALLS. -/
abbrev MAX_N_PWALLS : Nat := 60

/-- What WallData.h declares (the header is not part of the sources): the three wall types,
the constructor calls made by make_wall_field_params, the default constructors that fill a
freshly declared wall_type, and the three overloads of vecInsPtToWall. -/
structure WallData where
  SphereWall : Type
  CylinderWall : Type
  PlaneWall : Type
  mkSphereWall : Scalar → Scalar3 → Bool → SphereWall
  mkCylinderWall : Scalar → Scalar3 → Scalar3 → Bool → CylinderWall
  mkPlaneWall : Scalar3 → Scalar3 → PlaneWall
  defaultSphereWall : SphereWall
  defaultCylinderWall : CylinderWall
  defaultPlaneWall : PlaneWall
  vecInsPtToWallSphere : SphereWall → vec3 → vec3
  vecInsPtToWallCylinder : CylinderWall → vec3 → vec3
  vecInsPtToWallPlane : PlaneWall → vec3 → vec3

/-- The struct wall_type: three fixed-capacity arrays and three counts. -/
structure wall_type (W : WallData) where
  Spheres : Fin MAX_N_SWALLS → W.SphereWall
  Cylinders : Fin MAX_N_CWALLS → W.CylinderWall
  Planes : Fin MAX_N_PWALLS → W.PlaneWall
  numSpheres : Nat
  numCylinders : Nat
  numPlanes : Nat

/-- Read of a fixed-capacity array at a run-time index; none when out of bounds. -/
def readAt {c : Nat} {α : Type} (a : Fin c → α) (k : Nat) : Option α :=
  if h : k < c then some (a ⟨k, h⟩) else none

/-- The template parameter `evaluator`: a pair potential with its static queries, its
constructor (rsq, rcutsq, params), its setters and evalForceAndEnergy, which receives the
current contents of the two output references and returns
(evaluated, force_divr, pair_eng). -/
structure PairEvaluator where
  param_type : Type
  State : Type
  needsDiameter : Bool
  needsCharge : Bool
  ctor : Scalar → Scalar → param_type → State
  setDiameter : State → Scalar → Scalar → State
  setCharge : State → Scalar → Scalar → State
  evalForceAndEnergy : State → Scalar → Scalar → Bool → Bool × Scalar × Scalar
  getName : String

/-- The typedef EvaluatorWalls::param_type. -/
structure EvaluatorWalls.param_type (E : PairEvaluator) where
  params : E.param_type
  rcutsq : Scalar
  rminsq : Scalar

/-- The members of class EvaluatorWalls. -/
structure EvaluatorWalls (W : WallData) (E : PairEvaluator) where
  m_pos : Scalar3
  m_field : wall_type W
  m_params : EvaluatorWalls.param_type E
  di : Scalar
  qi : Scalar

/-- Constructor of EvaluatorWalls: the box is ignored; di and qi are not initialised, their
indeterminate contents are the last two arguments. -/
def EvaluatorWalls.ctor {W : WallData} {E : PairEvaluator} {BoxDim : Type} (pos : Scalar3)
    (_box : BoxDim) (p : EvaluatorWalls.param_type E) (f : wall_type W)
    (di0 qi0 : Scalar) : EvaluatorWalls W E :=
  { m_pos := pos, m_field := f, m_params := p, di := di0, qi := qi0 }

/-- Static EvaluatorWalls::needsDiameter. -/
def EvaluatorWalls.needsDiameter (E : PairEvaluator) : Bool := E.needsDiameter

/-- Member EvaluatorWalls::setDiameter. -/
def EvaluatorWalls.setDiameter {W : WallData} {E : PairEvaluator} (self : EvaluatorWalls W E)
    (diameter : Scalar) : EvaluatorWalls W E :=
  { self with di := diameter }

/-- Static EvaluatorWalls::needsCharge. -/
def EvaluatorWalls.needsCharge (E : PairEvaluator) : Bool := E.needsCharge

/-- Member EvaluatorWalls::setCharge. -/
def EvaluatorWalls.setCharge {W : WallData} {E : PairEvaluator} (self : EvaluatorWalls W E)
    (charge : Scalar) : EvaluatorWalls W E :=
  { self with qi := charge }

/-- One call made on the potential evaluator, with its arguments. -/
inductive Call (P : Type) where
  | construct (rsq rcutsq : Scalar) (params : P)
  | setDiameter (di dj : Scalar)
  | setCharge (qi qj : Scalar)
  | evalForceAndEnergy (force_divr pair_eng : Scalar) (energy_shift : Bool)

/-- The call is the declaration of an evaluator object. -/
def Call.isConstruct {P : Type} : Call P → Bool
  | Call.construct _ _ _ => true
  | _ => false

/-- The call is an evalForceAndEnergy call. -/
def Call.isEval {P : Type} : Call P → Bool
  | Call.evalForceAndEnergy _ _ _ => true
  | _ => false

/-- A potential evaluator object together with the record of the calls made so far. -/
structure Traced (E : PairEvaluator) where
  obj : E.State
  log : List (Call E.param_type)

/-- Declaration `evaluator eval(rsq, rcutsq, params)`, recorded. -/
def Traced.construct (E : PairEvaluator) (log : List (Call E.param_type))
    (rsq rcutsq : Scalar) (params : E.param_type) : Traced E :=
  { obj := E.ctor rsq rcutsq params, log := log ++ [Call.construct rsq rcutsq params] }

/-- Call `eval.setDiameter(di, dj)`, recorded. -/
def Traced.setDiameter {E : PairEvaluator} (t : Traced E) (di dj : Scalar) : Traced E :=
  { obj := E.setDiameter t.obj di dj, log := t.log ++ [Call.setDiameter di dj] }

/-- Call `eval.setCharge(qi, qj)`, recorded. -/
def Traced.setCharge {E : PairEvaluator} (t : Traced E) (qi qj : Scalar) : Traced E :=
  { obj := E.setCharge t.obj qi qj, log := t.log ++ [Call.setCharge qi qj] }

/-- Call `eval.evalForceAndEnergy(force_divr, pair_eng, energy_shift)`, recorded: the
returned triple and the extended record. -/
def Traced.evalForceAndEnergy {E : PairEvaluator} (t : Traced E) (force_divr pair_eng : Scalar)
    (energy_shift : Bool) : (Bool × Scalar × Scalar) × List (Call E.param_type) :=
  (E.evalForceAndEnergy t.obj force_divr pair_eng energy_shift,
    t.log ++ [Call.evalForceAndEnergy force_divr pair_eng energy_shift])

/-- The destination of evalForceEnergyAndVirial (F, energy, the buffer behind the virial
pointer) and the ghost record of evaluator calls. -/
structure Outputs (P : Type) where
  F : Scalar3
  energy : Scalar
  virial : List Scalar
  calls : List (Call P)

/-- Assignment `virial[i] = v` through the pointer; none outside the buffer. -/
def storeVirial (virial : List Scalar) (i : Nat) (v : Scalar) : Option (List Scalar) :=
  if i < virial.length then some (virial.set i v) else none

/-- Update `virial[i] += v` through the pointer; none outside the buffer. -/
def addVirial (virial : List Scalar) (i : Nat) (v : Scalar) : Option (List Scalar) :=
  match virial[i]? with
  | some old => some (virial.set i (old + v))
  | none => none

/-- A loop `for (unsigned int k = 0; k < n; k++) body`, the body acting on a state and able
to fail. -/
def forLoop {m : Type → Type} [Monad m] {σ : Type} (n : Nat) (body : Nat → σ → m σ) (s : σ) :
    m σ :=
  (List.range n).foldlM (fun s k => body k s) s

/-- The body shared (textually identical) by the sphere, cylinder and plane loops of
evalForceEnergyAndVirial, from `Scalar3 dx = -vec_to_scalar3(dxv)` on. -/
def wallBody {W : WallData} (E : PairEvaluator) (self : EvaluatorWalls W E)
    (energy_shift : Bool) (dxv : vec3) (o : Outputs E.param_type) :
    Option (Outputs E.param_type) :=
  let dx : Scalar3 := -(vec_to_scalar3 dxv)
  let rsq : Scalar := dot dx dx
  if rsq ≥ self.m_params.rminsq then
    let force_divr : Scalar := 0
    let pair_eng : Scalar := 0
    let eval := Traced.construct E o.calls rsq self.m_params.rcutsq self.m_params.params
    let eval := if E.needsDiameter then eval.setDiameter self.di 0 else eval
    let eval := if E.needsCharge then eval.setCharge self.qi 0 else eval
    let res := eval.evalForceAndEnergy force_divr pair_eng energy_shift
    let evaluated : Bool := res.1.1
    let force_divr : Scalar := res.1.2.1
    let pair_eng : Scalar := res.1.2.2
    if evaluated then do
      let F := o.F + dx * force_divr
      let energy := o.energy + pair_eng
      let virial ← addVirial o.virial 0 (force_divr * dx.x * dx.x)
      let virial ← addVirial virial 1 (force_divr * dx.x * dx.y)
      let virial ← addVirial virial 2 (force_divr * dx.x * dx.z)
      let virial ← addVirial virial 3 (force_divr * dx.y * dx.y)
      let virial ← addVirial virial 4 (force_divr * dx.y * dx.z)
      let virial ← addVirial virial 5 (force_divr * dx.z * dx.z)
      some { F := F, energy := energy, virial := virial, calls := res.2 }
    else
      some { o with calls := res.2 }
  else
    some o

set_option linter.unusedVariables false in
/-- Member EvaluatorWalls::evalForceEnergyAndVirial; the arguments F, energy, virial are the
contents of the destination before the call. -/
def evalForceEnergyAndVirial {W : WallData} (E : PairEvaluator) (self : EvaluatorWalls W E)
    (F : Scalar3) (energy : Scalar) (virial : List Scalar) : Option (Outputs E.param_type) := do
  let F : Scalar3 := { F with x := 0 }
  let F : Scalar3 := { F with y := 0 }
  let F : Scalar3 := { F with z := 0 }
  let energy : Scalar := 0
  let virial ← forLoop 6 (fun i v => storeVirial v i 0) virial
  let position : vec3 := vec3.ofScalar3 self.m_pos
  let energy_shift : Bool := true
  let o : Outputs E.param_type := { F := F, energy := energy, virial := virial, calls := [] }
  let o ← forLoop self.m_field.numSpheres (fun k o => do
    let wall ← readAt self.m_field.Spheres k
    wallBody E self energy_shift (W.vecInsPtToWallSphere wall position) o) o
  let o ← forLoop self.m_field.numCylinders (fun k o => do
    let wall ← readAt self.m_field.Cylinders k
    wallBody E self energy_shift (W.vecInsPtToWallCylinder wall position) o) o
  let o ← forLoop self.m_field.numPlanes (fun k o => do
    let wall ← readAt self.m_field.Planes k
    wallBody E self energy_shift (W.vecInsPtToWallPlane wall position) o) o
  some o

/-- Function make_wall_params. -/
def make_wall_params (E : PairEvaluator) (p : E.param_type) (rcutsq rminsq : Scalar) :
    EvaluatorWalls.param_type E :=
  { params := p, rcutsq := rcutsq, rminsq := rminsq }

/-- Static EvaluatorWalls::getName. -/
def EvaluatorWalls.getName (E : PairEvaluator) : String := "walls_" ++ E.getName

/-- A sphere descriptor of the python wall group: the attributes r, _origin, inside. -/
structure PySphere where
  r : Scalar
  _origin : Scalar3
  inside : Bool

/-- A cylinder descriptor of the python wall group: the attributes r, _origin, _axis,
inside. -/
structure PyCylinder where
  r : Scalar
  _origin : Scalar3
  _axis : Scalar3
  inside : Bool

/-- A plane descriptor of the python wall group: the attributes _origin, _normal, and the
inside flag the specification gives every wall descriptor. -/
structure PyPlane where
  _origin : Scalar3
  _normal : Scalar3
  inside : Bool

/-- The python object handed to make_wall_field_params: its attributes spheres, cylinders,
planes. -/
structure PyWallGroup where
  spheres : List PySphere
  cylinders : List PyCylinder
  planes : List PyPlane

/-- The ways make_wall_field_params can end without returning. -/
inductive Fault where
  | runtime_error (what : String)
  | out_of_bounds
  | index_error
deriving DecidableEq

/-- Conversion of a length (ssize_t, non-negative) to unsigned int: reduction modulo 2^32. -/
def toUnsignedInt (n : Nat) : Nat := n % 2 ^ 32

/-- Python indexing `list[i]`; IndexError past the end. -/
def pyIndex {α : Type} (l : List α) (i : Nat) : Except Fault α :=
  match l[i]? with
  | some a => Except.ok a
  | none => Except.error Fault.index_error

/-- Assignment `a[k] = v` to a fixed-capacity array at a run-time index. -/
def writeAt {c : Nat} {α : Type} (a : Fin c → α) (k : Nat) (v : α) :
    Except Fault (Fin c → α) :=
  if h : k < c then Except.ok (Function.update a ⟨k, h⟩ v) else Except.error Fault.out_of_bounds

/-- Function make_wall_field_params. The declaration `wall_type w;` default-constructs the
three arrays; the three counts are assigned from the lengths at once. -/
def make_wall_field_params (W : WallData) (walls : PyWallGroup) : Except Fault (wall_type W) :=
  let w : wall_type W :=
    { Spheres := fun _ => W.defaultSphereWall
      Cylinders := fun _ => W.defaultCylinderWall
      Planes := fun _ => W.defaultPlaneWall
      numSpheres := toUnsignedInt walls.spheres.length
      numCylinders := toUnsignedInt walls.cylinders.length
      numPlanes := toUnsignedInt walls.planes.length }
  if w.numSpheres > MAX_N_SWALLS ∨ w.numCylinders > MAX_N_CWALLS ∨ w.numPlanes > MAX_N_PWALLS then
    Except.error (Fault.runtime_error "Error loading wall group.")
  else do
    let w ← forLoop w.numSpheres (fun i w => do
      let d ← pyIndex walls.spheres i
      let r := d.r
      let origin := d._origin
      let inside := d.inside
      let a ← writeAt w.Spheres i (W.mkSphereWall r origin inside)
      pure { w with Spheres := a }) w
    let w ← forLoop w.numCylinders (fun i w => do
      let d ← pyIndex walls.cylinders i
      let r := d.r
      let origin := d._origin
      let axis := d._axis
      let inside := d.inside
      let a ← writeAt w.Cylinders i (W.mkCylinderWall r origin axis inside)
      pure { w with Cylinders := a }) w
    let w ← forLoop w.numPlanes (fun i w => do
      let d ← pyIndex walls.planes i
      let origin := d._origin
      let normal := d._normal
      let a ← writeAt w.Planes i (W.mkPlaneWall origin normal)
      pure { w with Planes := a }) w
    pure w

/-- Separation vector handed to the potential: `dx = -vec_to_scalar3(dxv)`. -/
def separation (dxv : vec3) : Scalar3 := -(vec_to_scalar3 dxv)

/-- Squared separation `rsq = dot(dx, dx)` of a wall with displacement dxv. -/
def rsqOf (dxv : vec3) : Scalar := dot (separation dxv) (separation dxv)

/-- The evaluator object as the loop body has prepared it when evalForceAndEnergy is
called, for a wall at squared separation rsq. -/
def wallEvaluator {W : WallData} (E : PairEvaluator) (self : EvaluatorWalls W E)
    (rsq : Scalar) : E.State :=
  let e := E.ctor rsq self.m_params.rcutsq self.m_params.params
  let e := if E.needsDiameter then E.setDiameter e self.di 0 else e
  if E.needsCharge then E.setCharge e self.qi 0 else e

/-- What the potential reports for a wall at squared separation rsq:
(evaluated, force_divr, pair_eng). -/
def wallEval {W : WallData} (E : PairEvaluator) (self : EvaluatorWalls W E)
    (rsq : Scalar) : Bool × Scalar × Scalar :=
  E.evalForceAndEnergy (wallEvaluator E self rsq) 0 0 true

/-- The calls made on the potential for one wall that passes the rminsq guard. -/
def wallCalls {W : WallData} (E : PairEvaluator) (self : EvaluatorWalls W E)
    (rsq : Scalar) : List (Call E.param_type) :=
  [Call.construct rsq self.m_params.rcutsq self.m_params.params]
    ++ (if E.needsDiameter then [Call.setDiameter self.di 0] else [])
    ++ (if E.needsCharge then [Call.setCharge self.qi 0] else [])
    ++ [Call.evalForceAndEnergy 0 0 true]

/-- A wall contributes when it passes the rminsq guard and the potential reports it as
evaluated. -/
def contributes {W : WallData} (E : PairEvaluator) (self : EvaluatorWalls W E)
    (dxv : vec3) : Bool :=
  decide (self.m_params.rminsq ≤ rsqOf dxv) && (wallEval E self (rsqOf dxv)).1

/-- The force_divr a wall contributes with, zero when it does not contribute. -/
def termForce {W : WallData} (E : PairEvaluator) (self : EvaluatorWalls W E)
    (dxv : vec3) : Scalar :=
  if contributes E self dxv then (wallEval E self (rsqOf dxv)).2.1 else 0

/-- The pair_eng a wall contributes with, zero when it does not contribute. -/
def termEnergy {W : WallData} (E : PairEvaluator) (self : EvaluatorWalls W E)
    (dxv : vec3) : Scalar :=
  if contributes E self dxv then (wallEval E self (rsqOf dxv)).2.2 else 0

/-- The calls made on the potential for one wall: none when the wall is skipped. -/
def termCalls {W : WallData} (E : PairEvaluator) (self : EvaluatorWalls W E)
    (dxv : vec3) : List (Call E.param_type) :=
  if self.m_params.rminsq ≤ rsqOf dxv then wallCalls E self (rsqOf dxv) else []

/-- Sum of a scalar quantity over a list of wall displacements. -/
def sumOver (f : vec3 → Scalar) (dxs : List vec3) : Scalar := (dxs.map f).sum

/-- The accumulated force, energy, virial and call record of a list of walls given by their
displacements: the closed form of the three loops. -/
def total {W : WallData} (E : PairEvaluator) (self : EvaluatorWalls W E)
    (dxs : List vec3) : Outputs E.param_type :=
  { F := ⟨sumOver (fun d => (separation d).x * termForce E self d) dxs,
          sumOver (fun d => (separation d).y * termForce E self d) dxs,
          sumOver (fun d => (separation d).z * termForce E self d) dxs⟩
    energy := sumOver (termEnergy E self) dxs
    virial :=
      [sumOver (fun d => termForce E self d * (separation d).x * (separation d).x) dxs,
       sumOver (fun d => termForce E self d * (separation d).x * (separation d).y) dxs,
       sumOver (fun d => termForce E self d * (separation d).x * (separation d).z) dxs,
       sumOver (fun d => termForce E self d * (separation d).y * (separation d).y) dxs,
       sumOver (fun d => termForce E self d * (separation d).y * (separation d).z) dxs,
       sumOver (fun d => termForce E self d * (separation d).z * (separation d).z) dxs]
    calls := dxs.flatMap (termCalls E self) }

/-- The first n entries of a fixed-capacity array, in index order. -/
def firstN {c : Nat} {α : Type} (a : Fin c → α) (n : Nat) : List α :=
  (List.range n).filterMap (readAt a)

/-- The configured spheres of a collection, in index order. -/
def wall_type.sphereList {W : WallData} (w : wall_type W) : List W.SphereWall :=
  firstN w.Spheres w.numSpheres

/-- The configured cylinders of a collection, in index order. -/
def wall_type.cylinderList {W : WallData} (w : wall_type W) : List W.CylinderWall :=
  firstN w.Cylinders w.numCylinders

/-- The configured planes of a collection, in index order. -/
def wall_type.planeList {W : WallData} (w : wall_type W) : List W.PlaneWall :=
  firstN w.Planes w.numPlanes

/-- The displacements of all configured walls from a position, in the order the loops visit
them: spheres, cylinders, planes. -/
def displacements {W : WallData} (w : wall_type W) (pos : Scalar3) : List vec3 :=
  w.sphereList.map (fun s => W.vecInsPtToWallSphere s (vec3.ofScalar3 pos))
    ++ w.cylinderList.map (fun s => W.vecInsPtToWallCylinder s (vec3.ofScalar3 pos))
    ++ w.planeList.map (fun s => W.vecInsPtToWallPlane s (vec3.ofScalar3 pos))

/-- The collection invariant: each count is within its capacity. -/
def wall_type.inCapacity {W : WallData} (w : wall_type W) : Prop :=
  w.numSpheres ≤ MAX_N_SWALLS ∧ w.numCylinders ≤ MAX_N_CWALLS ∧ w.numPlanes ≤ MAX_N_PWALLS

/-- The three geometry kinds. -/
inductive WallKind where
  | sphere
  | cylinder
  | plane
deriving DecidableEq

/-- A collection holds exactly one wall, of the given kind. -/
def wall_type.holdsOne {W : WallData} (w : wall_type W) (k : WallKind) : Prop :=
  match k with
  | WallKind.sphere => w.numSpheres = 1 ∧ w.numCylinders = 0 ∧ w.numPlanes = 0
  | WallKind.cylinder => w.numSpheres = 0 ∧ w.numCylinders = 1 ∧ w.numPlanes = 0
  | WallKind.plane => w.numSpheres = 0 ∧ w.numCylinders = 0 ∧ w.numPlanes = 1

/-- The geometry displacement `vecInsPtToWall(wall, position)` of the wall stored at index 0
of the array of the given kind. -/
def wall_type.firstDisplacement {W : WallData} (w : wall_type W) (k : WallKind)
    (pos : Scalar3) : vec3 :=
  match k with
  | WallKind.sphere => W.vecInsPtToWallSphere (w.Spheres 0) (vec3.ofScalar3 pos)
  | WallKind.cylinder => W.vecInsPtToWallCylinder (w.Cylinders 0) (vec3.ofScalar3 pos)
  | WallKind.plane => W.vecInsPtToWallPlane (w.Planes 0) (vec3.ofScalar3 pos)

/-- Two fixed-capacity arrays put one after the other: the first n entries of a, then the
entries of b. -/
def joinArrays {c : Nat} {α : Type} (a b : Fin c → α) (n : Nat) : Fin c → α :=
  fun k => if k.val < n then a k else b ⟨k.val - n, by omega⟩

/-- The collection that holds the walls of a followed by the walls of b, kind by kind. -/
def wall_type.join {W : WallData} (a b : wall_type W) : wall_type W :=
  { Spheres := joinArrays a.Spheres b.Spheres a.numSpheres
    Cylinders := joinArrays a.Cylinders b.Cylinders a.numCylinders
    Planes := joinArrays a.Planes b.Planes a.numPlanes
    numSpheres := a.numSpheres + b.numSpheres
    numCylinders := a.numCylinders + b.numCylinders
    numPlanes := a.numPlanes + b.numPlanes }

/-- An array whose entries below n have been overwritten by the values of a list, index by
index. -/
def fillArr {c : Nat} {α : Type} (a : Fin c → α) (vals : List α) (n : Nat) : Fin c → α :=
  fun k => if k.val < n then (vals[k.val]?).getD (a k) else a k

/-! ## Concrete data for the worked examples -/

/-- A sphere wall record: radius, origin, inside flag. -/
structure ExSphere where
  r : Scalar
  origin : Scalar3
  inside : Bool

/-- A cylinder wall record: radius, origin, axis, inside flag. -/
structure ExCylinder where
  r : Scalar
  origin : Scalar3
  axis : Scalar3
  inside : Bool

/-- A plane wall record: origin and normal. -/
structure ExPlane where
  origin : Scalar3
  normal : Scalar3

/-- A concrete WallData for the worked examples. The plane displacement is the projection
of (point - origin) on the normal, times the normal; the sphere and cylinder displacements
are rational stand-ins (vector to the centre, radial vector to the axis). -/
def exWallData : WallData where
  SphereWall := ExSphere
  CylinderWall := ExCylinder
  PlaneWall := ExPlane
  mkSphereWall := fun r o i => ⟨r, o, i⟩
  mkCylinderWall := fun r o a i => ⟨r, o, a, i⟩
  mkPlaneWall := fun o n => ⟨o, n⟩
  defaultSphereWall := ⟨0, ⟨0, 0, 0⟩, true⟩
  defaultCylinderWall := ⟨0, ⟨0, 0, 0⟩, ⟨0, 0, 1⟩, true⟩
  defaultPlaneWall := ⟨⟨0, 0, 0⟩, ⟨0, 0, 1⟩⟩
  vecInsPtToWallSphere := fun w p => ⟨w.origin.x - p.x, w.origin.y - p.y, w.origin.z - p.z⟩
  vecInsPtToWallCylinder := fun w p =>
    let t := (p.x - w.origin.x) * w.axis.x + (p.y - w.origin.y) * w.axis.y
      + (p.z - w.origin.z) * w.axis.z
    ⟨w.origin.x + w.axis.x * t - p.x, w.origin.y + w.axis.y * t - p.y,
      w.origin.z + w.axis.z * t - p.z⟩
  vecInsPtToWallPlane := fun w p =>
    let t := (p.x - w.origin.x) * w.normal.x + (p.y - w.origin.y) * w.normal.y
      + (p.z - w.origin.z) * w.normal.z
    ⟨w.normal.x * t, w.normal.y * t, w.normal.z * t⟩

/-- The object state of the example potential. -/
structure ExState where
  rsq : Scalar
  rcutsq : Scalar
  k : Scalar
  d : Scalar
  q : Scalar

/-- A concrete potential for the worked examples: inside the cutoff it reports
force_divr = k * (1 + di) and pair_eng = k * rsq, less k * rcutsq when shifted; at or beyond
the cutoff it reports not evaluated and leaves the outputs as they were. It needs the
diameter and not the charge. -/
def exPotential : PairEvaluator where
  param_type := Scalar
  State := ExState
  needsDiameter := true
  needsCharge := false
  ctor := fun rsq rcutsq k => ⟨rsq, rcutsq, k, 0, 0⟩
  setDiameter := fun st di dj => { st with d := di + dj }
  setCharge := fun st qi qj => { st with q := qi * qj }
  evalForceAndEnergy := fun st force_divr pair_eng energy_shift =>
    if st.rsq < st.rcutsq then
      (true, st.k * (1 + st.d), st.k * st.rsq - (if energy_shift then st.k * st.rcutsq else 0))
    else (false, force_divr, pair_eng)
  getName := "ex"

/-- A second concrete potential for the worked examples: it needs the charge and not the
diameter; inside the cutoff it reports force_divr = k * (1 + d + q) and pair_eng = k * rsq,
less k * rcutsq when shifted, where d and q are what setDiameter and setCharge stored. -/
def exChargePotential : PairEvaluator where
  param_type := Scalar
  State := ExState
  needsDiameter := false
  needsCharge := true
  ctor := fun rsq rcutsq k => ⟨rsq, rcutsq, k, 0, 0⟩
  setDiameter := fun st di dj => { st with d := di + dj }
  setCharge := fun st qi qj => { st with q := qi + qj }
  evalForceAndEnergy := fun st force_divr pair_eng energy_shift =>
    if st.rsq < st.rcutsq then
      (true, st.k * (1 + st.d + st.q),
        st.k * st.rsq - (if energy_shift then st.k * st.rcutsq else 0))
    else (false, force_divr, pair_eng)
  getName := "exq"

/-- A python wall group with one sphere, one cylinder and two planes. -/
def exGroup : PyWallGroup :=
  { spheres := [⟨5, ⟨0, 0, 0⟩, true⟩]
    cylinders := [⟨2, ⟨1, 0, 0⟩, ⟨0, 0, 1⟩, false⟩]
    planes := [⟨⟨0, 0, 0⟩, ⟨0, 0, 1⟩, true⟩, ⟨⟨0, 0, 3⟩, ⟨0, 0, -1⟩, false⟩] }

/-- The collection make_wall_field_params builds from exGroup. -/
def exBuilt : wall_type exWallData :=
  { Spheres := fillArr (fun _ => exWallData.defaultSphereWall)
      (exGroup.spheres.map (fun d => exWallData.mkSphereWall d.r d._origin d.inside))
      (toUnsignedInt exGroup.spheres.length)
    Cylinders := fillArr (fun _ => exWallData.defaultCylinderWall)
      (exGroup.cylinders.map (fun d => exWallData.mkCylinderWall d.r d._origin d._axis d.inside))
      (toUnsignedInt exGroup.cylinders.length)
    Planes := fillArr (fun _ => exWallData.defaultPlaneWall)
      (exGroup.planes.map (fun d => exWallData.mkPlaneWall d._origin d._normal))
      (toUnsignedInt exGroup.planes.length)
    numSpheres := toUnsignedInt exGroup.spheres.length
    numCylinders := toUnsignedInt exGroup.cylinders.length
    numPlanes := toUnsignedInt exGroup.planes.length }

/-- A wall group with one plane descriptor whose inside flag is the argument. -/
def exPlaneGroup (inside : Bool) : PyWallGroup :=
  { spheres := [], cylinders := [], planes := [⟨⟨0, 0, 0⟩, ⟨0, 0, 1⟩, inside⟩] }

/-- One plane with origin (1, 2, 3) and unit normal (3/5, 4/5, 0). -/
def exTiltedPlane : wall_type exWallData :=
  { Spheres := fun _ => exWallData.defaultSphereWall
    Cylinders := fun _ => exWallData.defaultCylinderWall
    Planes := fun _ => ⟨⟨1, 2, 3⟩, ⟨3 / 5, 4 / 5, 0⟩⟩
    numSpheres := 0, numCylinders := 0, numPlanes := 1 }

/-- The one-plane collection with other walls left in the unused slots of the arrays. -/
def exOnePlaneUsedSlots : wall_type exWallData :=
  { Spheres := fun _ => ⟨7, ⟨1, 1, 1⟩, false⟩
    Cylinders := fun _ => ⟨3, ⟨2, 2, 2⟩, ⟨1, 0, 0⟩, false⟩
    Planes := fun k => if k.val = 0 then ⟨⟨0, 0, 0⟩, ⟨0, 0, 1⟩⟩ else ⟨⟨9, 9, 9⟩, ⟨0, 1, 0⟩⟩
    numSpheres := 0, numCylinders := 0, numPlanes := 1 }

/-- One sphere of radius 5 centred at (0, 0, 2), inside = true: seen from (0, 0, 1) its
example displacement is the negation of that of exOneSphere. -/
def exMirrorSphere : wall_type exWallData :=
  { Spheres := fun _ => ⟨5, ⟨0, 0, 2⟩, true⟩
    Cylinders := fun _ => exWallData.defaultCylinderWall
    Planes := fun _ => exWallData.defaultPlaneWall
    numSpheres := 1, numCylinders := 0, numPlanes := 0 }

/-- The collection without walls. -/
def exNoWalls : wall_type exWallData :=
  { Spheres := fun _ => exWallData.defaultSphereWall
    Cylinders := fun _ => exWallData.defaultCylinderWall
    Planes := fun _ => exWallData.defaultPlaneWall
    numSpheres := 0, numCylinders := 0, numPlanes := 0 }

/-- One plane through the origin with normal (0, 0, 1). -/
def exOnePlane : wall_type exWallData :=
  { exNoWalls with Planes := fun _ => ⟨⟨0, 0, 0⟩, ⟨0, 0, 1⟩⟩, numPlanes := 1 }

/-- One sphere of radius 5 centred at the origin, inside = true. -/
def exOneSphere : wall_type exWallData :=
  { exNoWalls with Spheres := fun _ => ⟨5, ⟨0, 0, 0⟩, true⟩, numSpheres := 1 }

/-- The plane of exOnePlane and one sphere centred at (0, 0, 1). -/
def exSphereAndPlane : wall_type exWallData :=
  { exOnePlane with Spheres := fun _ => ⟨1, ⟨0, 0, 1⟩, true⟩, numSpheres := 1 }

/-- Parameters k = 2, rcutsq = 9, rminsq = 1/4. -/
def exParams : EvaluatorWalls.param_type exPotential := make_wall_params exPotential (2 : Scalar) 9 (1 / 4)

/-- A wall evaluator over a collection, for a particle at (0, 0, 1) with diameter 1 and
charge 0. -/
def exWalls (f : wall_type exWallData) : EvaluatorWalls exWallData exPotential :=
  ((EvaluatorWalls.ctor ⟨0, 0, 1⟩ () exParams f 0 0).setDiameter 1).setCharge 0

/-- A wall evaluator with the second example potential over the one-plane collection, for a
particle at (0, 0, 1); diameter and charge as left by the constructor (here 3 and 1). -/
def exChargeWalls : EvaluatorWalls exWallData exChargePotential :=
  EvaluatorWalls.ctor ⟨0, 0, 1⟩ () (make_wall_params exChargePotential (2 : Scalar) 9 (1 / 4))
    exOnePlane 3 1

/-- A wall evaluator over exTiltedPlane for a particle at origin + normal =
(8/5, 14/5, 3). -/
def exTiltedWalls : EvaluatorWalls exWallData exPotential :=
  ((EvaluatorWalls.ctor ⟨8 / 5, 14 / 5, 3⟩ () exParams exTiltedPlane 0 0).setDiameter 1).setCharge 0

/-! ## The loop body over an arbitrary scalar arithmetic

The definitions above compute in exact arithmetic. To see what rounding does to a statement,
the reset of the destination and the loop body are embedded a second time over an abstract
arithmetic, which is then taken to be exact rational arithmetic or IEEE-754 binary64. -/

/-- The operations evalForceEnergyAndVirial performs on Scalar values. -/
structure ScalarArith where
  S : Type
  zero : S
  add : S → S → S
  mul : S → S → S
  neg : S → S
  ge : S → S → Bool

/-- Scalar3 over an arithmetic. -/
structure Scalar3In (A : ScalarArith) where
  x : A.S
  y : A.S
  z : A.S

/-- The six virial slots virial[0] .. virial[5] over an arithmetic. -/
structure VirialIn (A : ScalarArith) where
  xx : A.S
  xy : A.S
  xz : A.S
  yy : A.S
  yz : A.S
  zz : A.S

/-- The destination F, energy, virial over an arithmetic. -/
structure OutputsIn (A : ScalarArith) where
  F : Scalar3In A
  energy : A.S
  virial : VirialIn A

/-- Dot product of HOOMDMath.h, `a.x*b.x + a.y*b.y + a.z*b.z`, over an arithmetic. -/
def dotIn (A : ScalarArith) (a b : Scalar3In A) : A.S :=
  A.add (A.add (A.mul a.x b.x) (A.mul a.y b.y)) (A.mul a.z b.z)

/-- The reset of the destination at the head of evalForceEnergyAndVirial, over an
arithmetic. -/
def resetIn (A : ScalarArith) : OutputsIn A :=
  { F := ⟨A.zero, A.zero, A.zero⟩, energy := A.zero,
    virial := ⟨A.zero, A.zero, A.zero, A.zero, A.zero, A.zero⟩ }

/-- The loop body of evalForceEnergyAndVirial over an arithmetic, with energy_shift = true;
`pot rsq` is what the prepared potential object reports for rsq:
(evaluated, force_divr, pair_eng). -/
def wallBodyIn (A : ScalarArith) (rminsq : A.S) (pot : A.S → Bool × A.S × A.S)
    (dxv : Scalar3In A) (o : OutputsIn A) : OutputsIn A :=
  let dx : Scalar3In A := ⟨A.neg dxv.x, A.neg dxv.y, A.neg dxv.z⟩
  let rsq : A.S := dotIn A dx dx
  if A.ge rsq rminsq then
    let res := pot rsq
    let evaluated : Bool := res.1
    let force_divr : A.S := res.2.1
    let pair_eng : A.S := res.2.2
    if evaluated then
      { F := ⟨A.add o.F.x (A.mul dx.x force_divr), A.add o.F.y (A.mul dx.y force_divr),
              A.add o.F.z (A.mul dx.z force_divr)⟩
        energy := A.add o.energy pair_eng
        virial :=
          ⟨A.add o.virial.xx (A.mul (A.mul force_divr dx.x) dx.x),
           A.add o.virial.xy (A.mul (A.mul force_divr dx.x) dx.y),
           A.add o.virial.xz (A.mul (A.mul force_divr dx.x) dx.z),
           A.add o.virial.yy (A.mul (A.mul force_divr dx.y) dx.y),
           A.add o.virial.yz (A.mul (A.mul force_divr dx.y) dx.z),
           A.add o.virial.zz (A.mul (A.mul force_divr dx.z) dx.z)⟩ }
    else o
  else o

/-- The evaluation of a collection that holds one wall, over an arithmetic: the reset, then
one pass of the loop body. -/
def evalOneWallIn (A : ScalarArith) (rminsq : A.S) (pot : A.S → Bool × A.S × A.S)
    (dxv : Scalar3In A) : OutputsIn A :=
  wallBodyIn A rminsq pot dxv (resetIn A)

/-- Exact rational arithmetic, the arithmetic of Scalar in this file. -/
def exactArith : ScalarArith :=
  { S := Scalar, zero := 0, add := fun a b => a + b, mul := fun a b => a * b,
    neg := fun a => -a, ge := fun a b => decide (a ≥ b) }

/-- A finite IEEE-754 binary64 number: the value m * 2^e, with 2^52 <= |m| < 2^53, or
m = 0 and e = 0. Exponent range, signed zeros, infinities and NaN are not modelled. -/
structure Dbl where
  m : Int
  e : Int
deriving DecidableEq

/-- The number of binary digits of n, by repeated halving (at most fuel digits). -/
def bitLengthAux : Nat → Nat → Nat
  | 0, _ => 0
  | fuel + 1, n => if n = 0 then 0 else bitLengthAux fuel (n / 2) + 1

/-- The number of binary digits of a natural number. -/
def bitLength (n : Nat) : Nat := bitLengthAux n n

/-- The binary64 number nearest to m * 2^e, ties to even (the default rounding). -/
def Dbl.round (m e : Int) : Dbl :=
  if m = 0 then ⟨0, 0⟩
  else
    let n := m.natAbs
    let len := bitLength n
    if len ≤ 53 then ⟨m * 2 ^ (53 - len), e - ((53 - len : Nat) : Int)⟩
    else
      let s := len - 53
      let q := n / 2 ^ s
      let r := n % 2 ^ s
      let q := if 2 * r > 2 ^ s ∨ (2 * r = 2 ^ s ∧ q % 2 = 1) then q + 1 else q
      if q = 2 ^ 53 then ⟨m.sign * 2 ^ 52, e + ((s + 1 : Nat) : Int)⟩
      else ⟨m.sign * (q : Int), e + (s : Int)⟩

/-- Sum in binary64: the exact sum, rounded once. -/
def Dbl.add (a b : Dbl) : Dbl :=
  let e := min a.e b.e
  Dbl.round (a.m * 2 ^ (a.e - e).toNat + b.m * 2 ^ (b.e - e).toNat) e

/-- Product in binary64: the exact product, rounded once. -/
def Dbl.mul (a b : Dbl) : Dbl := Dbl.round (a.m * b.m) (a.e + b.e)

/-- Negation in binary64, exact. -/
def Dbl.neg (a : Dbl) : Dbl := ⟨-a.m, a.e⟩

/-- Comparison `a >= b` in binary64. -/
def Dbl.ge (a b : Dbl) : Bool :=
  let e := min a.e b.e
  decide (a.m * 2 ^ (a.e - e).toNat ≥ b.m * 2 ^ (b.e - e).toNat)

/-- The rational value of a binary64 number. -/
def Dbl.toRat (a : Dbl) : ℚ := (a.m : ℚ) * (2 : ℚ) ^ a.e

/-- IEEE-754 binary64 arithmetic with round-to-nearest-even, the arithmetic of Scalar in a
double-precision build. -/
def doubleArith : ScalarArith :=
  { S := Dbl, zero := ⟨0, 0⟩, add := Dbl.add, mul := Dbl.mul, neg := Dbl.neg, ge := Dbl.ge }

/-- The double 0.1 = 0x1.999999999999ap-4. -/
def dbl_0_1 : Dbl := ⟨7205759403792794, -56⟩

/-- The double 0.2 = 0x1.999999999999ap-3. -/
def dbl_0_2 : Dbl := ⟨7205759403792794, -55⟩

/-- The double 0.3 = 0x1.3333333333333p-2. -/
def dbl_0_3 : Dbl := ⟨5404319552844595, -54⟩

/-- The separation vector dx = (-0.1, -0.2, -0.3) in binary64: the negated displacement
(0.1, 0.2, 0.3). -/
def exDoubleDx : Scalar3In doubleArith := ⟨Dbl.neg dbl_0_1, Dbl.neg dbl_0_2, Dbl.neg dbl_0_3⟩

/-- The evaluation in binary64 of a collection holding one wall with displacement
(0.1, 0.2, 0.3), with rminsq = 0 and a potential that reports evaluated with
force_divr = 0.1 and pair_eng = 0. -/
def exDoubleRun : OutputsIn doubleArith :=
  evalOneWallIn doubleArith ⟨0, 0⟩ (fun _ => (true, dbl_0_1, ⟨0, 0⟩))
    ⟨dbl_0_1, dbl_0_2, dbl_0_3⟩

/-! ## Auxiliary lemmas -/

theorem Scalar3.ext_iff3 (a b : Scalar3) : a = b ↔ a.x = b.x ∧ a.y = b.y ∧ a.z = b.z := by
  cases a; cases b; simp

theorem Scalar3.add_x (a b : Scalar3) : (a + b).x = a.x + b.x := rfl
theorem Scalar3.add_y (a b : Scalar3) : (a + b).y = a.y + b.y := rfl
theorem Scalar3.add_z (a b : Scalar3) : (a + b).z = a.z + b.z := rfl
theorem Scalar3.mul_x (a : Scalar3) (s : Scalar) : (a * s).x = a.x * s := rfl
theorem Scalar3.mul_y (a : Scalar3) (s : Scalar) : (a * s).y = a.y * s := rfl
theorem Scalar3.mul_z (a : Scalar3) (s : Scalar) : (a * s).z = a.z * s := rfl

theorem Scalar3.add_mul_zero (a b : Scalar3) : a + b * (0 : Scalar) = a := by
  rw [Scalar3.ext_iff3]
  simp [Scalar3.add_x, Scalar3.add_y, Scalar3.add_z, Scalar3.mul_x, Scalar3.mul_y,
    Scalar3.mul_z]

theorem Scalar3.neg_x (a : Scalar3) : (-a).x = -a.x := rfl
theorem Scalar3.neg_y (a : Scalar3) : (-a).y = -a.y := rfl
theorem Scalar3.neg_z (a : Scalar3) : (-a).z = -a.z := rfl

theorem exWallData_sphere (w : ExSphere) (p : vec3) :
    exWallData.vecInsPtToWallSphere w p
      = ⟨w.origin.x - p.x, w.origin.y - p.y, w.origin.z - p.z⟩ := rfl

theorem exWallData_cylinder (w : ExCylinder) (p : vec3) :
    exWallData.vecInsPtToWallCylinder w p
      = ⟨w.origin.x + w.axis.x * ((p.x - w.origin.x) * w.axis.x + (p.y - w.origin.y) * w.axis.y
            + (p.z - w.origin.z) * w.axis.z) - p.x,
          w.origin.y + w.axis.y * ((p.x - w.origin.x) * w.axis.x + (p.y - w.origin.y) * w.axis.y
            + (p.z - w.origin.z) * w.axis.z) - p.y,
          w.origin.z + w.axis.z * ((p.x - w.origin.x) * w.axis.x + (p.y - w.origin.y) * w.axis.y
            + (p.z - w.origin.z) * w.axis.z) - p.z⟩ := rfl

theorem exWallData_plane (w : ExPlane) (p : vec3) :
    exWallData.vecInsPtToWallPlane w p
      = ⟨w.normal.x * ((p.x - w.origin.x) * w.normal.x + (p.y - w.origin.y) * w.normal.y
            + (p.z - w.origin.z) * w.normal.z),
          w.normal.y * ((p.x - w.origin.x) * w.normal.x + (p.y - w.origin.y) * w.normal.y
            + (p.z - w.origin.z) * w.normal.z),
          w.normal.z * ((p.x - w.origin.x) * w.normal.x + (p.y - w.origin.y) * w.normal.y
            + (p.z - w.origin.z) * w.normal.z)⟩ := rfl

theorem exPotential_needsDiameter : exPotential.needsDiameter = true := rfl

theorem exPotential_needsCharge : exPotential.needsCharge = false := rfl

theorem exPotential_ctor (rsq rcutsq k : Scalar) :
    exPotential.ctor rsq rcutsq k = (⟨rsq, rcutsq, k, 0, 0⟩ : ExState) := rfl

theorem exPotential_setDiameter (st : ExState) (di dj : Scalar) :
    exPotential.setDiameter st di dj = ({ st with d := di + dj } : ExState) := rfl

theorem exPotential_setCharge (st : ExState) (qi qj : Scalar) :
    exPotential.setCharge st qi qj = ({ st with q := qi * qj } : ExState) := rfl

theorem exPotential_eval (st : ExState) (force_divr pair_eng : Scalar) (energy_shift : Bool) :
    exPotential.evalForceAndEnergy st force_divr pair_eng energy_shift =
      if st.rsq < st.rcutsq then
        (true, st.k * (1 + st.d),
          st.k * st.rsq - (if energy_shift then st.k * st.rcutsq else 0))
      else (false, force_divr, pair_eng) := rfl

theorem list_length_six {α : Type} (l : List α) (h : l.length = 6) :
    ∃ a b c d e f, l = [a, b, c, d, e, f] := by
  match l, h with
  | [a, b, c, d, e, f], _ => exact ⟨a, b, c, d, e, f, rfl⟩

theorem forLoop_succ {σ : Type} (n : Nat) (body : Nat → σ → Option σ) (s : σ) :
    forLoop (n + 1) body s = (forLoop n body s).bind (body n) := by
  simp [forLoop, List.range_succ, List.foldlM_append]

theorem forLoop_zero {σ : Type} (body : Nat → σ → Option σ) (s : σ) :
    forLoop 0 body s = some s := by
  simp [forLoop]

/-- The six stores of the reset loop on a six-element buffer. -/
theorem reset_virial (v : List Scalar) (h : v.length = 6) :
    forLoop 6 (fun i v => storeVirial v i 0) v = some [0, 0, 0, 0, 0, 0] := by
  obtain ⟨a, b, c, d, e, f, rfl⟩ := list_length_six v h
  simp [forLoop, List.range_succ, storeVirial]

/-- The traced evaluator object after the declaration and the two conditional setter calls:
its state is wallEvaluator, its record has grown by the calls made. -/
theorem traced_prepare {W : WallData} (E : PairEvaluator) (self : EvaluatorWalls W E)
    (cs : List (Call E.param_type)) : ∀ rsq : Scalar,
      (if E.needsCharge then
          Traced.setCharge
            (if E.needsDiameter then
              Traced.setDiameter
                (Traced.construct E cs rsq self.m_params.rcutsq self.m_params.params) self.di 0
            else Traced.construct E cs rsq self.m_params.rcutsq self.m_params.params) self.qi 0
        else
          (if E.needsDiameter then
              Traced.setDiameter
                (Traced.construct E cs rsq self.m_params.rcutsq self.m_params.params) self.di 0
            else Traced.construct E cs rsq self.m_params.rcutsq self.m_params.params))
        = ⟨wallEvaluator E self rsq,
            cs ++ ([Call.construct rsq self.m_params.rcutsq self.m_params.params]
              ++ (if E.needsDiameter then [Call.setDiameter self.di 0] else [])
              ++ (if E.needsCharge then [Call.setCharge self.qi 0] else []))⟩ := by
  intro rsq
  cases hD : E.needsDiameter <;> cases hC : E.needsCharge <;>
    simp [Traced.setCharge, Traced.setDiameter, Traced.construct, wallEvaluator, hC, hD]

/-- One pass of the loop body on a wall that passes the guard and that the potential
reports as not evaluated: only the call record grows. -/
theorem wallBody_not_evaluated {W : WallData} (E : PairEvaluator) (self : EvaluatorWalls W E)
    (dxv : vec3) (o : Outputs E.param_type) (hmin : self.m_params.rminsq ≤ rsqOf dxv)
    (hev : (wallEval E self (rsqOf dxv)).1 = false) :
    wallBody E self true dxv o
      = some { o with calls := o.calls ++ wallCalls E self (rsqOf dxv) } := by
  have hobj := traced_prepare E self o.calls
  have hmin2 := hmin
  have hev2 := hev
  simp only [rsqOf, separation, wallEval] at hmin2 hev2
  simp [wallBody, hobj, Traced.evalForceAndEnergy, hmin2, hev2, wallCalls]
  simp [rsqOf, separation]

/-- One pass of the loop body on a six-element virial buffer. -/
theorem wallBody_eq {W : WallData} (E : PairEvaluator) (self : EvaluatorWalls W E) (dxv : vec3)
    (F : Scalar3) (en a b c d e f : Scalar) (cs : List (Call E.param_type)) :
    wallBody E self true dxv ⟨F, en, [a, b, c, d, e, f], cs⟩ =
      some ⟨F + separation dxv * termForce E self dxv, en + termEnergy E self dxv,
        [a + termForce E self dxv * (separation dxv).x * (separation dxv).x,
         b + termForce E self dxv * (separation dxv).x * (separation dxv).y,
         c + termForce E self dxv * (separation dxv).x * (separation dxv).z,
         d + termForce E self dxv * (separation dxv).y * (separation dxv).y,
         e + termForce E self dxv * (separation dxv).y * (separation dxv).z,
         f + termForce E self dxv * (separation dxv).z * (separation dxv).z],
        cs ++ termCalls E self dxv⟩ := by
  have hobj := traced_prepare E self cs
  by_cases hmin : self.m_params.rminsq ≤ rsqOf dxv
  · by_cases hev : (wallEval E self (rsqOf dxv)).1 = true
    · have hmin2 := hmin
      have hev2 := hev
      simp only [rsqOf, separation, wallEval] at hmin2 hev2
      simp [wallBody, hobj, Traced.evalForceAndEnergy, hmin2, hev2, addVirial, termForce,
        termEnergy, termCalls, contributes, hmin, hev, wallCalls]
      simp [rsqOf, separation, wallEval]
    · have hmin2 := hmin
      have hev2 := hev
      simp only [rsqOf, separation, wallEval] at hmin2 hev2
      simp [wallBody, hobj, Traced.evalForceAndEnergy, hmin2, hev2, termForce,
        termEnergy, termCalls, contributes, hmin, hev, wallCalls, Scalar3.add_mul_zero]
      simp [rsqOf, separation, wallEval]
  · have hmin2 := hmin
    simp only [rsqOf, separation] at hmin2
    simp [wallBody, hmin2, termForce, termEnergy, termCalls, contributes, hmin,
      Scalar3.add_mul_zero]

theorem firstN_succ {c : Nat} {α : Type} (a : Fin c → α) (n : Nat) (h : n < c) :
    firstN a (n + 1) = firstN a n ++ [a ⟨n, h⟩] := by
  simp [firstN, List.range_succ, List.filterMap_append, readAt, h]

theorem firstN_zero {c : Nat} {α : Type} (a : Fin c → α) : firstN a 0 = [] := by
  simp [firstN]

/-- A counted loop that reads entry k of a fixed-capacity array and steps the state with it
is the fold over the first n entries, as long as the count is within the capacity. -/
theorem forLoop_read {c : Nat} {α β σ : Type} (arr : Fin c → α) (g : α → β)
    (step : β → σ → Option σ) (n : Nat) (h : n ≤ c) (s : σ) :
    forLoop n (fun k s => (readAt arr k).bind fun wall => step (g wall) s) s
      = ((firstN arr n).map g).foldlM (fun s d => step d s) s := by
  induction n with
  | zero => simp [forLoop_zero, firstN_zero]
  | succ n ih =>
    have hn : n < c := by omega
    rw [forLoop_succ, ih (by omega), firstN_succ arr n hn]
    simp [List.foldlM_append, readAt, hn]

/-- The fold of the loop body over a list of displacements, in closed form. -/
theorem foldWalls_eq {W : WallData} (E : PairEvaluator) (self : EvaluatorWalls W E)
    (dxs : List vec3) (F : Scalar3) (en a b c d e f : Scalar)
    (cs : List (Call E.param_type)) :
    dxs.foldlM (fun o dxv => wallBody E self true dxv o) ⟨F, en, [a, b, c, d, e, f], cs⟩ =
      some ⟨F + (total E self dxs).F, en + (total E self dxs).energy,
        List.zipWith (fun u v => u + v) [a, b, c, d, e, f] (total E self dxs).virial,
        cs ++ (total E self dxs).calls⟩ := by
  induction dxs generalizing F en a b c d e f cs with
  | nil =>
    simp [total, sumOver, Scalar3.ext_iff3, Scalar3.add_x, Scalar3.add_y, Scalar3.add_z]
  | cons dxv rest ih =>
    rw [List.foldlM_cons, wallBody_eq]
    simp only [Option.bind_eq_bind, Option.some_bind]
    rw [ih]
    simp [total, sumOver, Scalar3.ext_iff3, Scalar3.add_x, Scalar3.add_y, Scalar3.add_z,
      Scalar3.mul_x, Scalar3.mul_y, Scalar3.mul_z, add_assoc]

theorem sumOver_append (f : vec3 → Scalar) (l₁ l₂ : List vec3) :
    sumOver f (l₁ ++ l₂) = sumOver f l₁ + sumOver f l₂ := by
  simp [sumOver]

/-- The whole evaluation in closed form: on a six-element virial buffer and a collection
within capacity, evalForceEnergyAndVirial returns the totals over the displacement list. -/
theorem eval_eq {W : WallData} (E : PairEvaluator) (self : EvaluatorWalls W E)
    (F0 : Scalar3) (e0 : Scalar) (v0 : List Scalar) (hv : v0.length = 6)
    (hcap : self.m_field.inCapacity) :
    evalForceEnergyAndVirial E self F0 e0 v0 =
      some (total E self (displacements self.m_field self.m_pos)) := by
  obtain ⟨hs, hc, hp⟩ := hcap
  unfold evalForceEnergyAndVirial
  rw [reset_virial v0 hv]
  simp only [Option.bind_eq_bind, Option.some_bind, bind_pure_comp]
  have h1 := fun s => forLoop_read self.m_field.Spheres
    (fun w => W.vecInsPtToWallSphere w (vec3.ofScalar3 self.m_pos))
    (fun d o => wallBody E self true d o) _ hs s
  have h2 := fun s => forLoop_read self.m_field.Cylinders
    (fun w => W.vecInsPtToWallCylinder w (vec3.ofScalar3 self.m_pos))
    (fun d o => wallBody E self true d o) _ hc s
  have h3 := fun s => forLoop_read self.m_field.Planes
    (fun w => W.vecInsPtToWallPlane w (vec3.ofScalar3 self.m_pos))
    (fun d o => wallBody E self true d o) _ hp s
  simp only [h1, h2, h3]
  have key := foldWalls_eq E self (displacements self.m_field self.m_pos) ⟨0, 0, 0⟩ 0
    0 0 0 0 0 0 []
  simp only [displacements, List.foldlM_append, wall_type.sphereList, wall_type.cylinderList,
    wall_type.planeList, Option.bind_eq_bind] at key
  simp only [Option.bind_assoc] at key ⊢
  have hid : ∀ x : Option (Outputs E.param_type), (x.bind fun a => some a) = x := by
    intro x; cases x <;> rfl
  simp only [hid]
  rw [key]
  simp [total, displacements, wall_type.sphereList, wall_type.cylinderList,
    wall_type.planeList, Scalar3.ext_iff3, Scalar3.add_x, Scalar3.add_y, Scalar3.add_z]

/-- In a collection that holds one wall, the displacement list is that wall's. -/
theorem displacements_holdsOne {W : WallData} (w : wall_type W) (k : WallKind) (pos : Scalar3)
    (h : w.holdsOne k) : displacements w pos = [w.firstDisplacement k pos] := by
  cases k <;> obtain ⟨h1, h2, h3⟩ := h <;>
    simp [displacements, wall_type.sphereList, wall_type.cylinderList, wall_type.planeList,
      h1, h2, h3, firstN, List.range_succ, readAt, wall_type.firstDisplacement]

theorem inCapacity_holdsOne {W : WallData} (w : wall_type W) (k : WallKind)
    (h : w.holdsOne k) : w.inCapacity := by
  cases k <;> obtain ⟨h1, h2, h3⟩ := h <;> simp [wall_type.inCapacity, h1, h2, h3]

/-- The whole result for a collection that holds one wall which is evaluated. -/
theorem eval_single {W : WallData} (E : PairEvaluator) (self : EvaluatorWalls W E)
    (k : WallKind) (F0 : Scalar3) (e0 : Scalar) (v0 : List Scalar) (f e : Scalar)
    (hv : v0.length = 6) (h1 : self.m_field.holdsOne k)
    (hmin : rsqOf (self.m_field.firstDisplacement k self.m_pos) ≥ self.m_params.rminsq)
    (hev : wallEval E self (rsqOf (self.m_field.firstDisplacement k self.m_pos)) = (true, f, e)) :
    evalForceEnergyAndVirial E self F0 e0 v0 =
      some ⟨separation (self.m_field.firstDisplacement k self.m_pos) * f, e,
        [f * (separation (self.m_field.firstDisplacement k self.m_pos)).x
            * (separation (self.m_field.firstDisplacement k self.m_pos)).x,
         f * (separation (self.m_field.firstDisplacement k self.m_pos)).x
            * (separation (self.m_field.firstDisplacement k self.m_pos)).y,
         f * (separation (self.m_field.firstDisplacement k self.m_pos)).x
            * (separation (self.m_field.firstDisplacement k self.m_pos)).z,
         f * (separation (self.m_field.firstDisplacement k self.m_pos)).y
            * (separation (self.m_field.firstDisplacement k self.m_pos)).y,
         f * (separation (self.m_field.firstDisplacement k self.m_pos)).y
            * (separation (self.m_field.firstDisplacement k self.m_pos)).z,
         f * (separation (self.m_field.firstDisplacement k self.m_pos)).z
            * (separation (self.m_field.firstDisplacement k self.m_pos)).z],
        wallCalls E self (rsqOf (self.m_field.firstDisplacement k self.m_pos))⟩ := by
  rw [eval_eq E self F0 e0 v0 hv (inCapacity_holdsOne _ k h1), displacements_holdsOne _ k _ h1]
  have hmin2 : self.m_params.rminsq ≤ rsqOf (self.m_field.firstDisplacement k self.m_pos) := hmin
  simp [total, sumOver, termForce, termEnergy, termCalls, contributes, hmin2, hev,
    Scalar3.ext_iff3, Scalar3.mul_x, Scalar3.mul_y, Scalar3.mul_z]

theorem firstN_length {c : Nat} {α : Type} (a : Fin c → α) (n : Nat) (h : n ≤ c) :
    (firstN a n).length = n := by
  induction n with
  | zero => simp [firstN_zero]
  | succ n ih => rw [firstN_succ a n (by omega)]; simp [ih (by omega)]

/-- The first n entries depend only on the entries below n. -/
theorem firstN_congr {c : Nat} {α : Type} (a b : Fin c → α) (n : Nat)
    (h : ∀ (k : Nat) (hk : k < c), k < n → a ⟨k, hk⟩ = b ⟨k, hk⟩) :
    firstN a n = firstN b n := by
  induction n with
  | zero => simp [firstN_zero]
  | succ n ih =>
    have ih2 := ih (fun k hk hkn => h k hk (by omega))
    simp only [firstN, List.range_succ, List.filterMap_append] at ih2 ⊢
    rw [ih2]
    congr 1
    by_cases hn : n < c
    · simp [readAt, hn, h n hn (by omega)]
    · simp [readAt, hn]

/-- The first n + m entries of two joined arrays are the first n of the one followed by
the first m of the other. -/
theorem firstN_join {c : Nat} {α : Type} (a b : Fin c → α) (n m : Nat) (h : n + m ≤ c) :
    firstN (joinArrays a b n) (n + m) = firstN a n ++ firstN b m := by
  induction m with
  | zero =>
    simp only [Nat.add_zero, firstN_zero, List.append_nil]
    apply firstN_congr
    intro k hk hkn
    simp [joinArrays, hkn]
  | succ m ih =>
    have hlt : n + m < c := by omega
    rw [← Nat.add_assoc, firstN_succ _ _ hlt, ih (by omega), firstN_succ b m (by omega)]
    simp [joinArrays]

/-- The totals depend on the wall evaluator only through its parameters, diameter and
charge. -/
theorem total_congr {W : WallData} (E : PairEvaluator) (s₁ s₂ : EvaluatorWalls W E)
    (hp : s₁.m_params = s₂.m_params) (hd : s₁.di = s₂.di) (hq : s₁.qi = s₂.qi)
    (dxs : List vec3) : total E s₁ dxs = total E s₂ dxs := by
  have h1 : ∀ rsq, wallEval E s₁ rsq = wallEval E s₂ rsq := by
    intro rsq; simp [wallEval, wallEvaluator, hp, hd, hq]
  have h2 : ∀ d, contributes E s₁ d = contributes E s₂ d := by
    intro d; simp [contributes, h1, hp]
  have h3 : ∀ d, termForce E s₁ d = termForce E s₂ d := by
    intro d; simp [termForce, h1, h2]
  have h4 : ∀ d, termEnergy E s₁ d = termEnergy E s₂ d := by
    intro d; simp [termEnergy, h1, h2]
  have h5 : ∀ d, termCalls E s₁ d = termCalls E s₂ d := by
    intro d; simp [termCalls, wallCalls, hp, hd, hq]
  have h4f : termEnergy E s₁ = termEnergy E s₂ := funext h4
  have h5f : termCalls E s₁ = termCalls E s₂ := funext h5
  simp [total, h3, h4f, h5f]

theorem displacements_join {W : WallData} (a b : wall_type W) (pos : Scalar3)
    (h : (a.join b).inCapacity) :
    displacements (a.join b) pos =
      (a.sphereList.map (fun s => W.vecInsPtToWallSphere s (vec3.ofScalar3 pos))
        ++ b.sphereList.map (fun s => W.vecInsPtToWallSphere s (vec3.ofScalar3 pos)))
      ++ (a.cylinderList.map (fun s => W.vecInsPtToWallCylinder s (vec3.ofScalar3 pos))
        ++ b.cylinderList.map (fun s => W.vecInsPtToWallCylinder s (vec3.ofScalar3 pos)))
      ++ (a.planeList.map (fun s => W.vecInsPtToWallPlane s (vec3.ofScalar3 pos))
        ++ b.planeList.map (fun s => W.vecInsPtToWallPlane s (vec3.ofScalar3 pos))) := by
  obtain ⟨hs, hc, hp⟩ := h
  simp only [displacements, wall_type.sphereList, wall_type.cylinderList,
    wall_type.planeList, wall_type.join] at hs hc hp ⊢
  rw [firstN_join _ _ _ _ hs, firstN_join _ _ _ _ hc, firstN_join _ _ _ _ hp]
  simp only [List.map_append]

theorem inCapacity_join_left {W : WallData} (a b : wall_type W) (h : (a.join b).inCapacity) :
    a.inCapacity := by
  obtain ⟨hs, hc, hp⟩ := h
  simp only [wall_type.join] at hs hc hp
  exact ⟨by omega, by omega, by omega⟩

theorem inCapacity_join_right {W : WallData} (a b : wall_type W) (h : (a.join b).inCapacity) :
    b.inCapacity := by
  obtain ⟨hs, hc, hp⟩ := h
  simp only [wall_type.join] at hs hc hp
  exact ⟨by omega, by omega, by omega⟩

theorem sumOver_filter (f : vec3 → Scalar) (keep : vec3 → Bool) (l : List vec3)
    (h : ∀ d, keep d = false → f d = 0) : sumOver f (l.filter keep) = sumOver f l := by
  induction l with
  | nil => rfl
  | cons d rest ih =>
    cases hk : keep d
    · simp only [sumOver] at ih ⊢
      simp [List.filter_cons, hk, ih, h d hk]
    · simp only [sumOver] at ih ⊢
      simp [List.filter_cons, hk, ih]

theorem flatMap_filter {β : Type} (g : vec3 → List β) (keep : vec3 → Bool) (l : List vec3)
    (h : ∀ d, keep d = false → g d = []) : (l.filter keep).flatMap g = l.flatMap g := by
  induction l with
  | nil => rfl
  | cons d rest ih =>
    cases hk : keep d
    · simp [List.filter_cons, hk, ih, h d hk]
    · simp [List.filter_cons, hk, ih]

/-- The displacement list of a collection whose walls are those of another that pass a
test on their displacement. -/
theorem displacements_filter {W : WallData} (a b : wall_type W) (pos : Scalar3)
    (keep : vec3 → Bool)
    (hs : b.sphereList = a.sphereList.filter
      (fun w => keep (W.vecInsPtToWallSphere w (vec3.ofScalar3 pos))))
    (hc : b.cylinderList = a.cylinderList.filter
      (fun w => keep (W.vecInsPtToWallCylinder w (vec3.ofScalar3 pos))))
    (hp : b.planeList = a.planeList.filter
      (fun w => keep (W.vecInsPtToWallPlane w (vec3.ofScalar3 pos)))) :
    displacements b pos = (displacements a pos).filter keep := by
  simp only [displacements, hs, hc, hp, List.filter_append, List.filter_map]
  rfl

/-- A wall below rminsq leaves the accumulators and the call record as they are. -/
theorem wallBody_skip {W : WallData} (E : PairEvaluator) (self : EvaluatorWalls W E)
    (shift : Bool) (dxv : vec3) (o : Outputs E.param_type)
    (h : rsqOf dxv < self.m_params.rminsq) : wallBody E self shift dxv o = some o := by
  have h2 : ¬ (self.m_params.rminsq ≤ dot (-(vec_to_scalar3 dxv)) (-(vec_to_scalar3 dxv))) :=
    not_le.mpr h
  simp [wallBody, h2]

/-- Every recorded call of an evaluation belongs to the calls of one wall. -/
theorem mem_total_calls {W : WallData} (E : PairEvaluator) (self : EvaluatorWalls W E)
    (dxs : List vec3) (c : Call E.param_type) (h : c ∈ (total E self dxs).calls) :
    ∃ rsq, c ∈ wallCalls E self rsq := by
  simp only [total, List.mem_flatMap] at h
  obtain ⟨d, _, hd⟩ := h
  by_cases hmin : self.m_params.rminsq ≤ rsqOf d
  · exact ⟨rsqOf d, by simpa [termCalls, hmin] using hd⟩
  · simp [termCalls, hmin] at hd

theorem forLoop_succ_except {σ : Type} (n : Nat) (body : Nat → σ → Except Fault σ) (s : σ) :
    forLoop (n + 1) body s = (forLoop n body s >>= body n) := by
  simp [forLoop, List.range_succ, List.foldlM_append]

theorem fillArr_zero {c : Nat} {α : Type} (a : Fin c → α) (vals : List α) :
    fillArr a vals 0 = a := by
  funext k; simp [fillArr]

theorem fillArr_succ {c : Nat} {α : Type} (a : Fin c → α) (vals : List α) (n : Nat)
    (hn : n < c) (v : α) (hv : vals[n]? = some v) :
    Function.update (fillArr a vals n) ⟨n, hn⟩ v = fillArr a vals (n + 1) := by
  funext k
  by_cases hk : k = ⟨n, hn⟩
  · subst hk; simp [fillArr, hv]
  · have hne : k.val ≠ n := fun h => hk (Fin.ext h)
    rw [Function.update_noteq hk]
    by_cases hlt : k.val < n
    · have : k.val < n + 1 := by omega
      simp [fillArr, hlt, this]
    · have : ¬ k.val < n + 1 := by omega
      simp [fillArr, hlt, this]

/-- A loop that reads entry i of a python list, builds a wall from it and stores it at
index i of one of the arrays of the state fills that array with the first n walls. -/
theorem forLoop_fill {c : Nat} {σ α β : Type} (get : σ → Fin c → α)
    (set : σ → (Fin c → α) → σ) (hgs : ∀ s a, get (set s a) = a)
    (hss : ∀ s a b, set (set s a) b = set s b) (hsg : ∀ s, set s (get s) = s)
    (l : List β) (mk : β → α) (n : Nat) (hn : n ≤ c) (hl : n ≤ l.length) (s : σ) :
    forLoop n (fun i w => do
        let d ← pyIndex l i
        let a ← writeAt (get w) i (mk d)
        pure (set w a)) s
      = Except.ok (set s (fillArr (get s) (l.map mk) n)) := by
  induction n with
  | zero => simp [forLoop, fillArr_zero, hsg]; rfl
  | succ n ih =>
    have hlt : n < l.length := by omega
    have hc : n < c := by omega
    rw [forLoop_succ_except, ih (by omega) (by omega)]
    have hidx : pyIndex l n = Except.ok l[n] := by
      simp [pyIndex, List.getElem?_eq_getElem hlt]
    have hm : (l.map mk)[n]? = some (mk l[n]) := by
      simp [List.getElem?_eq_getElem hlt]
    simp only [bind, Except.bind, hidx, hgs, writeAt, hc, dite_true, pure, Except.pure, hss,
      fillArr_succ _ _ n hc _ hm]

/-- The capacity check of make_wall_field_params: a stored count above its capacity ends
the call with the runtime error, before any loop. -/
theorem make_wall_field_params_overflow (W : WallData) (walls : PyWallGroup)
    (h : toUnsignedInt walls.spheres.length > MAX_N_SWALLS
      ∨ toUnsignedInt walls.cylinders.length > MAX_N_CWALLS
      ∨ toUnsignedInt walls.planes.length > MAX_N_PWALLS) :
    make_wall_field_params W walls
      = Except.error (Fault.runtime_error "Error loading wall group.") := by
  simp only [make_wall_field_params]
  rw [if_pos h]

/-- When the three stored counts are zero, make_wall_field_params returns a collection with
no walls. -/
theorem make_wall_field_params_zero (W : WallData) (walls : PyWallGroup)
    (hs : toUnsignedInt walls.spheres.length = 0)
    (hc : toUnsignedInt walls.cylinders.length = 0)
    (hp : toUnsignedInt walls.planes.length = 0) :
    make_wall_field_params W walls = Except.ok
      { Spheres := fun _ => W.defaultSphereWall
        Cylinders := fun _ => W.defaultCylinderWall
        Planes := fun _ => W.defaultPlaneWall
        numSpheres := 0, numCylinders := 0, numPlanes := 0 } := by
  simp only [make_wall_field_params, hs, hc, hp]
  simp [forLoop]
  rfl

theorem toUnsignedInt_le (n : Nat) : toUnsignedInt n ≤ n := Nat.mod_le _ _

theorem toUnsignedInt_of_lt (n : Nat) (h : n < 2 ^ 32) : toUnsignedInt n = n :=
  Nat.mod_eq_of_lt h

/-- When the capacity check passes, make_wall_field_params returns the collection whose
counts are the stored counts and whose arrays hold, below the counts, the walls built from
the descriptors in order. -/
theorem make_wall_field_params_ok (W : WallData) (walls : PyWallGroup)
    (hs : toUnsignedInt walls.spheres.length ≤ MAX_N_SWALLS)
    (hc : toUnsignedInt walls.cylinders.length ≤ MAX_N_CWALLS)
    (hp : toUnsignedInt walls.planes.length ≤ MAX_N_PWALLS) :
    make_wall_field_params W walls = Except.ok
      { Spheres := fillArr (fun _ => W.defaultSphereWall)
          (walls.spheres.map (fun d => W.mkSphereWall d.r d._origin d.inside))
          (toUnsignedInt walls.spheres.length)
        Cylinders := fillArr (fun _ => W.defaultCylinderWall)
          (walls.cylinders.map (fun d => W.mkCylinderWall d.r d._origin d._axis d.inside))
          (toUnsignedInt walls.cylinders.length)
        Planes := fillArr (fun _ => W.defaultPlaneWall)
          (walls.planes.map (fun d => W.mkPlaneWall d._origin d._normal))
          (toUnsignedInt walls.planes.length)
        numSpheres := toUnsignedInt walls.spheres.length
        numCylinders := toUnsignedInt walls.cylinders.length
        numPlanes := toUnsignedInt walls.planes.length } := by
  have hno : ¬ (toUnsignedInt walls.spheres.length > MAX_N_SWALLS
      ∨ toUnsignedInt walls.cylinders.length > MAX_N_CWALLS
      ∨ toUnsignedInt walls.planes.length > MAX_N_PWALLS) := by
    simp only [gt_iff_lt, not_or, not_lt]
    exact ⟨hs, hc, hp⟩
  simp only [make_wall_field_params]
  rw [if_neg hno]
  have h1 := fun s => forLoop_fill (fun w : wall_type W => w.Spheres)
    (fun w a => { w with Spheres := a }) (fun _ _ => rfl) (fun _ _ _ => rfl) (fun _ => rfl)
    walls.spheres (fun d => W.mkSphereWall d.r d._origin d.inside)
    (toUnsignedInt walls.spheres.length) hs (toUnsignedInt_le _) s
  have h2 := fun s => forLoop_fill (fun w : wall_type W => w.Cylinders)
    (fun w a => { w with Cylinders := a }) (fun _ _ => rfl) (fun _ _ _ => rfl) (fun _ => rfl)
    walls.cylinders (fun d => W.mkCylinderWall d.r d._origin d._axis d.inside)
    (toUnsignedInt walls.cylinders.length) hc (toUnsignedInt_le _) s
  have h3 := fun s => forLoop_fill (fun w : wall_type W => w.Planes)
    (fun w a => { w with Planes := a }) (fun _ _ => rfl) (fun _ _ _ => rfl) (fun _ => rfl)
    walls.planes (fun d => W.mkPlaneWall d._origin d._normal)
    (toUnsignedInt walls.planes.length) hp (toUnsignedInt_le _) s
  have hb : ∀ (a : wall_type W) (f : wall_type W → Except Fault (wall_type W)),
      (Except.ok a >>= f) = f a := fun _ _ => rfl
  simp only [] at h1 h2 h3
  simp only [h1, hb, h2, h3]
  rfl

/-- For descriptor lists shorter than 2^32 the call ends with the runtime error exactly when
one of the lengths exceeds its capacity, and returns a collection otherwise. -/
theorem make_wall_field_params_in_range (W : WallData) (walls : PyWallGroup)
    (hs : walls.spheres.length < 2 ^ 32) (hc : walls.cylinders.length < 2 ^ 32)
    (hp : walls.planes.length < 2 ^ 32) :
    (make_wall_field_params W walls
        = Except.error (Fault.runtime_error "Error loading wall group.")
      ↔ (walls.spheres.length > MAX_N_SWALLS ∨ walls.cylinders.length > MAX_N_CWALLS
          ∨ walls.planes.length > MAX_N_PWALLS)) ∧
    ((∃ w, make_wall_field_params W walls = Except.ok w)
      ↔ (walls.spheres.length ≤ MAX_N_SWALLS ∧ walls.cylinders.length ≤ MAX_N_CWALLS
          ∧ walls.planes.length ≤ MAX_N_PWALLS)) := by
  have es := toUnsignedInt_of_lt _ hs
  have ec := toUnsignedInt_of_lt _ hc
  have ep := toUnsignedInt_of_lt _ hp
  by_cases h : walls.spheres.length > MAX_N_SWALLS ∨ walls.cylinders.length > MAX_N_CWALLS
      ∨ walls.planes.length > MAX_N_PWALLS
  · have hf := make_wall_field_params_overflow W walls (by rw [es, ec, ep]; exact h)
    refine ⟨⟨fun _ => h, fun _ => hf⟩, ⟨?_, ?_⟩⟩
    · rintro ⟨w, hw⟩
      rw [hf] at hw
      cases hw
    · intro h2
      omega
  · have h2 : walls.spheres.length ≤ MAX_N_SWALLS ∧ walls.cylinders.length ≤ MAX_N_CWALLS
        ∧ walls.planes.length ≤ MAX_N_PWALLS := by omega
    have hok := make_wall_field_params_ok W walls (by rw [es]; exact h2.1)
      (by rw [ec]; exact h2.2.1) (by rw [ep]; exact h2.2.2)
    refine ⟨⟨?_, fun h3 => absurd h3 h⟩, ⟨fun _ => h2, fun _ => ⟨_, hok⟩⟩⟩
    intro hf
    rw [hok] at hf
    cases hf

/-- Twenty-one sphere descriptors end the call with the runtime error. -/
theorem make_wall_field_params_21_spheres (W : WallData) (d : PySphere) :
    make_wall_field_params W ⟨List.replicate 21 d, [], []⟩
      = Except.error (Fault.runtime_error "Error loading wall group.") :=
  make_wall_field_params_overflow W _ (Or.inl (by simp [toUnsignedInt]))

/-- Twenty spheres, twenty cylinders and sixty planes are accepted. -/
theorem make_wall_field_params_full (W : WallData) (s : PySphere) (c : PyCylinder)
    (p : PyPlane) :
    ∃ w, make_wall_field_params W
      ⟨List.replicate 20 s, List.replicate 20 c, List.replicate 60 p⟩ = Except.ok w :=
  ⟨_, make_wall_field_params_ok W _ (by simp [toUnsignedInt]) (by simp [toUnsignedInt])
    (by simp [toUnsignedInt])⟩

/-- The entries below the count of a filled array are the values of the list. -/
theorem readAt_fillArr {c : Nat} {α : Type} (a : Fin c → α) (vals : List α) (n i : Nat)
    (v : α) (hi : i < n) (hc : n ≤ c) (hv : vals[i]? = some v) :
    readAt (fillArr a vals n) i = some v := by
  have hic : i < c := by omega
  simp [readAt, hic, fillArr, hi, hv]

/-- Whatever the wall group, make_wall_field_params either returns the collection described
by make_wall_field_params_ok or ends with the runtime error of the capacity check. -/
theorem make_wall_field_params_cases (W : WallData) (walls : PyWallGroup) :
    make_wall_field_params W walls
        = Except.error (Fault.runtime_error "Error loading wall group.") ∨
      (toUnsignedInt walls.spheres.length ≤ MAX_N_SWALLS ∧
        toUnsignedInt walls.cylinders.length ≤ MAX_N_CWALLS ∧
        toUnsignedInt walls.planes.length ≤ MAX_N_PWALLS ∧
        make_wall_field_params W walls = Except.ok
          { Spheres := fillArr (fun _ => W.defaultSphereWall)
              (walls.spheres.map (fun d => W.mkSphereWall d.r d._origin d.inside))
              (toUnsignedInt walls.spheres.length)
            Cylinders := fillArr (fun _ => W.defaultCylinderWall)
              (walls.cylinders.map (fun d => W.mkCylinderWall d.r d._origin d._axis d.inside))
              (toUnsignedInt walls.cylinders.length)
            Planes := fillArr (fun _ => W.defaultPlaneWall)
              (walls.planes.map (fun d => W.mkPlaneWall d._origin d._normal))
              (toUnsignedInt walls.planes.length)
            numSpheres := toUnsignedInt walls.spheres.length
            numCylinders := toUnsignedInt walls.cylinders.length
            numPlanes := toUnsignedInt walls.planes.length }) := by
  by_cases h : toUnsignedInt walls.spheres.length > MAX_N_SWALLS
      ∨ toUnsignedInt walls.cylinders.length > MAX_N_CWALLS
      ∨ toUnsignedInt walls.planes.length > MAX_N_PWALLS
  · exact Or.inl (make_wall_field_params_overflow W walls h)
  · have h2 : toUnsignedInt walls.spheres.length ≤ MAX_N_SWALLS ∧
        toUnsignedInt walls.cylinders.length ≤ MAX_N_CWALLS ∧
        toUnsignedInt walls.planes.length ≤ MAX_N_PWALLS := by omega
    exact Or.inr ⟨h2.1, h2.2.1, h2.2.2,
      make_wall_field_params_ok W walls h2.1 h2.2.1 h2.2.2⟩

/-- The built collection does not depend on the inside flags of the plane descriptors:
two wall groups that differ only there give the same result. -/
theorem make_wall_field_params_plane_inside (W : WallData) (g₁ g₂ : PyWallGroup)
    (hs : g₁.spheres = g₂.spheres) (hc : g₁.cylinders = g₂.cylinders)
    (hp : g₁.planes.map (fun d => (d._origin, d._normal))
      = g₂.planes.map (fun d => (d._origin, d._normal))) :
    make_wall_field_params W g₁ = make_wall_field_params W g₂ := by
  have hlen : g₁.planes.length = g₂.planes.length := by
    have := congrArg List.length hp
    simpa using this
  have hmap : g₁.planes.map (fun d => W.mkPlaneWall d._origin d._normal)
      = g₂.planes.map (fun d => W.mkPlaneWall d._origin d._normal) := by
    have := congrArg (List.map (fun q : Scalar3 × Scalar3 => W.mkPlaneWall q.1 q.2)) hp
    simpa [List.map_map, Function.comp] using this
  rcases make_wall_field_params_cases W g₁ with h1 | ⟨a1, b1, c1, h1⟩
  · rw [h1]
    by_cases h : toUnsignedInt g₂.spheres.length > MAX_N_SWALLS
        ∨ toUnsignedInt g₂.cylinders.length > MAX_N_CWALLS
        ∨ toUnsignedInt g₂.planes.length > MAX_N_PWALLS
    · rw [make_wall_field_params_overflow W g₂ h]
    · have h2 : toUnsignedInt g₁.spheres.length ≤ MAX_N_SWALLS ∧
          toUnsignedInt g₁.cylinders.length ≤ MAX_N_CWALLS ∧
          toUnsignedInt g₁.planes.length ≤ MAX_N_PWALLS := by
        rw [hs, hc, hlen]; omega
      rw [make_wall_field_params_ok W g₁ h2.1 h2.2.1 h2.2.2] at h1
      cases h1
  · rw [h1, make_wall_field_params_ok W g₂ (by rw [← hs]; exact a1) (by rw [← hc]; exact b1)
      (by rw [← hlen]; exact c1), hs, hc, hlen, hmap]

/-- A wall group with 2^32 + 1 sphere descriptors is accepted with numSpheres = 1. -/
theorem make_wall_field_params_count_wraps (W : WallData) (d : PySphere) :
    ∃ w, make_wall_field_params W ⟨List.replicate (2 ^ 32 + 1) d, [], []⟩ = Except.ok w ∧
      w.numSpheres = 1 := by
  have hl : toUnsignedInt (List.replicate (2 ^ 32 + 1) d).length = 1 := by
    rw [List.length_replicate]; rfl
  refine ⟨_, make_wall_field_params_ok W _ (by rw [hl]; decide) (by simp [toUnsignedInt])
    (by simp [toUnsignedInt]), hl⟩

/-- A counted loop whose body fails at some index below the count fails. -/
theorem forLoop_none {σ : Type} (n k : Nat) (body : Nat → σ → Option σ) (s : σ)
    (hk : k < n) (hbody : ∀ s, body k s = none) : forLoop n body s = none := by
  induction n with
  | zero => omega
  | succ n ih =>
    rw [forLoop_succ]
    by_cases hkn : k = n
    · subst hkn
      cases forLoop k body s <;> simp [hbody]
    · rw [ih (by omega)]
      rfl

/-- With more spheres counted than the array holds, the sphere loop reads past the array
and the evaluation has no result: the capacity invariant is needed. -/
theorem eval_out_of_bounds {W : WallData} (E : PairEvaluator) (self : EvaluatorWalls W E)
    (F0 : Scalar3) (e0 : Scalar) (v0 : List Scalar) (hv : v0.length = 6)
    (h : MAX_N_SWALLS < self.m_field.numSpheres) :
    evalForceEnergyAndVirial E self F0 e0 v0 = none := by
  unfold evalForceEnergyAndVirial
  rw [reset_virial v0 hv]
  simp only [Option.bind_eq_bind, Option.some_bind]
  rw [forLoop_none _ MAX_N_SWALLS _ _ h (by intro s; simp [readAt])]
  rfl

theorem wallCalls_one_construct {W : WallData} (E : PairEvaluator) (self : EvaluatorWalls W E)
    (rsq : Scalar) : ((wallCalls E self rsq).filter Call.isConstruct).length = 1 := by
  cases hD : E.needsDiameter <;> cases hC : E.needsCharge <;>
    simp [wallCalls, hD, hC, Call.isConstruct, List.filter_cons]

theorem wallCalls_one_eval {W : WallData} (E : PairEvaluator) (self : EvaluatorWalls W E)
    (rsq : Scalar) : ((wallCalls E self rsq).filter Call.isEval).length = 1 := by
  cases hD : E.needsDiameter <;> cases hC : E.needsCharge <;>
    simp [wallCalls, hD, hC, Call.isEval, List.filter_cons]

/-- In the call record of a list of walls, a kind of call that occurs once per wall that
passes the guard occurs as many times as there are walls that pass the guard. -/
theorem count_total_calls {W : WallData} (E : PairEvaluator) (self : EvaluatorWalls W E)
    (P : Call E.param_type → Bool)
    (hP : ∀ rsq, ((wallCalls E self rsq).filter P).length = 1) (dxs : List vec3) :
    ((total E self dxs).calls.filter P).length
      = (dxs.filter (fun d => decide (self.m_params.rminsq ≤ rsqOf d))).length := by
  simp only [total]
  induction dxs with
  | nil => rfl
  | cons d rest ih =>
    simp only [List.flatMap_cons, List.filter_append, List.length_append, ih]
    by_cases hmin : self.m_params.rminsq ≤ rsqOf d
    · simp [termCalls, hmin, hP, List.filter_cons, Nat.add_comm]
    · simp [termCalls, hmin, List.filter_cons]

/-- The squared separation is the squared Euclidean length of the geometry displacement. -/
theorem rsqOf_eq (dxv : vec3) : rsqOf dxv = dxv.x * dxv.x + dxv.y * dxv.y + dxv.z * dxv.z := by
  simp only [rsqOf, separation, dot, Scalar3.neg_x, Scalar3.neg_y, Scalar3.neg_z,
    vec_to_scalar3]
  ring

/-- Every recorded call of an evaluation belongs to the calls of one wall of the list that
passes the guard. -/
theorem mem_total_calls_wall {W : WallData} (E : PairEvaluator) (self : EvaluatorWalls W E)
    (dxs : List vec3) (c : Call E.param_type) (h : c ∈ (total E self dxs).calls) :
    ∃ d, d ∈ dxs ∧ self.m_params.rminsq ≤ rsqOf d ∧ c ∈ wallCalls E self (rsqOf d) := by
  simp only [total, List.mem_flatMap] at h
  obtain ⟨d, hmem, hd⟩ := h
  by_cases hmin : self.m_params.rminsq ≤ rsqOf d
  · exact ⟨d, hmem, hmin, by simpa [termCalls, hmin] using hd⟩
  · simp [termCalls, hmin] at hd

/-- The example plane displacement at origin + normal is the normal, for a unit normal. -/
theorem exWallData_plane_unit (o n : Scalar3) (hn : n.x * n.x + n.y * n.y + n.z * n.z = 1) :
    exWallData.vecInsPtToWallPlane ⟨o, n⟩ ⟨o.x + n.x, o.y + n.y, o.z + n.z⟩
      = ⟨n.x, n.y, n.z⟩ := by
  rw [exWallData_plane]
  have h : (o.x + n.x - o.x) * n.x + (o.y + n.y - o.y) * n.y + (o.z + n.z - o.z) * n.z = 1 := by
    rw [← hn]; ring
  simp [h, hn]

theorem vec3_neg_x (a : vec3) : (-a).x = -a.x := rfl
theorem vec3_neg_y (a : vec3) : (-a).y = -a.y := rfl
theorem vec3_neg_z (a : vec3) : (-a).z = -a.z := rfl

theorem rsqOf_neg (dxv : vec3) : rsqOf (-dxv) = rsqOf dxv := by
  rw [rsqOf_eq, rsqOf_eq, vec3_neg_x, vec3_neg_y, vec3_neg_z]
  ring

theorem separation_neg (dxv : vec3) : separation (-dxv) = -(separation dxv) := rfl

theorem termForce_neg {W : WallData} (E : PairEvaluator) (self : EvaluatorWalls W E)
    (dxv : vec3) : termForce E self (-dxv) = termForce E self dxv := by
  simp [termForce, contributes, rsqOf_neg]

theorem termEnergy_neg {W : WallData} (E : PairEvaluator) (self : EvaluatorWalls W E)
    (dxv : vec3) : termEnergy E self (-dxv) = termEnergy E self dxv := by
  simp [termEnergy, contributes, rsqOf_neg]

theorem termCalls_neg {W : WallData} (E : PairEvaluator) (self : EvaluatorWalls W E)
    (dxv : vec3) : termCalls E self (-dxv) = termCalls E self dxv := by
  simp [termCalls, rsqOf_neg]

/-- The totals of a single wall and of the wall with the negated displacement. -/
theorem total_single_neg {W : WallData} (E : PairEvaluator) (self : EvaluatorWalls W E)
    (dxv : vec3) :
    (total E self [-dxv]).F = -(total E self [dxv]).F ∧
      (total E self [-dxv]).energy = (total E self [dxv]).energy ∧
      (total E self [-dxv]).virial = (total E self [dxv]).virial ∧
      (total E self [-dxv]).calls = (total E self [dxv]).calls := by
  simp only [total, sumOver, List.map_cons, List.map_nil, List.sum_cons, List.sum_nil,
    add_zero, termForce_neg, termEnergy_neg, termCalls_neg, separation_neg, Scalar3.neg_x,
    Scalar3.neg_y, Scalar3.neg_z, List.flatMap_cons, List.flatMap_nil]
  refine ⟨?_, trivial, ?_, trivial⟩
  · rw [Scalar3.ext_iff3]
    simp [Scalar3.neg_x, Scalar3.neg_y, Scalar3.neg_z]
  · simp

/-- The sum of the xx, yy and zz virial terms over a list of walls is the sum over the
contributing walls of force_divr * rsq. -/
theorem trace_total {W : WallData} (E : PairEvaluator) (self : EvaluatorWalls W E)
    (dxs : List vec3) :
    sumOver (fun d => termForce E self d * (separation d).x * (separation d).x) dxs
      + sumOver (fun d => termForce E self d * (separation d).y * (separation d).y) dxs
      + sumOver (fun d => termForce E self d * (separation d).z * (separation d).z) dxs
      = ((dxs.filter (contributes E self)).map
          (fun d => (wallEval E self (rsqOf d)).2.1 * rsqOf d)).sum := by
  induction dxs with
  | nil => simp [sumOver]
  | cons d rest ih =>
    simp only [sumOver, List.map_cons, List.sum_cons] at ih ⊢
    cases hc : contributes E self d
    · have hf : termForce E self d = 0 := by simp [termForce, hc]
      simp only [List.filter_cons, hc, Bool.false_eq_true, if_false]
      rw [hf, ← ih]
      ring
    · have hf : termForce E self d = (wallEval E self (rsqOf d)).2.1 := by
        simp [termForce, hc]
      simp only [List.filter_cons, hc, if_true, List.map_cons, List.sum_cons]
      rw [hf, ← ih]
      simp only [rsqOf, dot]
      ring

/-- When the potential does not need the diameter, the totals do not depend on the diameter
held by the wall evaluator. -/
theorem total_congr_diameter {W : WallData} (E : PairEvaluator) (s₁ s₂ : EvaluatorWalls W E)
    (hn : E.needsDiameter = false) (hp : s₁.m_params = s₂.m_params) (hq : s₁.qi = s₂.qi)
    (dxs : List vec3) : total E s₁ dxs = total E s₂ dxs := by
  have h1 : ∀ rsq, wallEval E s₁ rsq = wallEval E s₂ rsq := by
    intro rsq; simp [wallEval, wallEvaluator, hp, hn, hq]
  have h2 : ∀ d, contributes E s₁ d = contributes E s₂ d := by
    intro d; simp [contributes, h1, hp]
  have h3 : ∀ d, termForce E s₁ d = termForce E s₂ d := by
    intro d; simp [termForce, h1, h2]
  have h4 : ∀ d, termEnergy E s₁ d = termEnergy E s₂ d := by
    intro d; simp [termEnergy, h1, h2]
  have h5 : ∀ d, termCalls E s₁ d = termCalls E s₂ d := by
    intro d; simp [termCalls, wallCalls, hp, hn, hq]
  have h4f : termEnergy E s₁ = termEnergy E s₂ := funext h4
  have h5f : termCalls E s₁ = termCalls E s₂ := funext h5
  simp [total, h3, h4f, h5f]

/-- When the potential does not need the charge, the totals do not depend on the charge
held by the wall evaluator. -/
theorem total_congr_charge {W : WallData} (E : PairEvaluator) (s₁ s₂ : EvaluatorWalls W E)
    (hn : E.needsCharge = false) (hp : s₁.m_params = s₂.m_params) (hd : s₁.di = s₂.di)
    (dxs : List vec3) : total E s₁ dxs = total E s₂ dxs := by
  have h1 : ∀ rsq, wallEval E s₁ rsq = wallEval E s₂ rsq := by
    intro rsq; simp [wallEval, wallEvaluator, hp, hn, hd]
  have h2 : ∀ d, contributes E s₁ d = contributes E s₂ d := by
    intro d; simp [contributes, h1, hp]
  have h3 : ∀ d, termForce E s₁ d = termForce E s₂ d := by
    intro d; simp [termForce, h1, h2]
  have h4 : ∀ d, termEnergy E s₁ d = termEnergy E s₂ d := by
    intro d; simp [termEnergy, h1, h2]
  have h5 : ∀ d, termCalls E s₁ d = termCalls E s₂ d := by
    intro d; simp [termCalls, wallCalls, hp, hn, hd]
  have h4f : termEnergy E s₁ = termEnergy E s₂ := funext h4
  have h5f : termCalls E s₁ = termCalls E s₂ := funext h5
  simp [total, h3, h4f, h5f]

/-- Over exact arithmetic the second embedding of the loop body computes what
evalForceEnergyAndVirial returns for a collection that holds one wall. -/
theorem evalOneWallIn_exact {W : WallData} (E : PairEvaluator) (self : EvaluatorWalls W E)
    (k : WallKind) (F0 : Scalar3) (e0 : Scalar) (v0 : List Scalar) (hv : v0.length = 6)
    (h1 : self.m_field.holdsOne k) :
    ∃ r, evalForceEnergyAndVirial E self F0 e0 v0 = some r ∧
      evalOneWallIn exactArith self.m_params.rminsq (wallEval E self)
          ⟨(self.m_field.firstDisplacement k self.m_pos).x,
           (self.m_field.firstDisplacement k self.m_pos).y,
           (self.m_field.firstDisplacement k self.m_pos).z⟩
        = { F := ⟨r.F.x, r.F.y, r.F.z⟩, energy := r.energy,
            virial := ⟨r.virial.getD 0 0, r.virial.getD 1 0, r.virial.getD 2 0,
              r.virial.getD 3 0, r.virial.getD 4 0, r.virial.getD 5 0⟩ } := by
  refine ⟨_, eval_eq E self F0 e0 v0 hv (inCapacity_holdsOne _ k h1), ?_⟩
  rw [displacements_holdsOne _ k _ h1]
  generalize self.m_field.firstDisplacement k self.m_pos = d
  have hr := rsqOf_eq d
  by_cases hmin : self.m_params.rminsq ≤ rsqOf d
  · cases hev : (wallEval E self (rsqOf d)).1
    · rw [hr] at hmin hev
      simp [evalOneWallIn, wallBodyIn, resetIn, exactArith, dotIn, total, sumOver, termForce,
        termEnergy, contributes, hmin, hev, hr]
    · rw [hr] at hmin hev
      simp [evalOneWallIn, wallBodyIn, resetIn, exactArith, dotIn, total, sumOver, termForce,
        termEnergy, contributes, hmin, hev, hr, separation, vec_to_scalar3, Scalar3.neg_x,
        Scalar3.neg_y, Scalar3.neg_z]
  · rw [hr] at hmin
    simp [evalOneWallIn, wallBodyIn, resetIn, exactArith, dotIn, total, sumOver, termForce,
      termEnergy, contributes, hmin, hr]

/-! ## Facts about the worked examples -/

theorem firstN_one {c : Nat} {α : Type} (a : Fin c → α) (h : 0 < c) :
    firstN a 1 = [a ⟨0, h⟩] := by
  rw [firstN_succ a 0 h, firstN_zero]; rfl

theorem exOnePlane_planeList :
    exOnePlane.planeList = [(⟨⟨0, 0, 0⟩, ⟨0, 0, 1⟩⟩ : ExPlane)] :=
  firstN_one _ (by decide)

theorem exSphereAndPlane_planeList :
    exSphereAndPlane.planeList = [(⟨⟨0, 0, 0⟩, ⟨0, 0, 1⟩⟩ : ExPlane)] :=
  firstN_one _ (by decide)

theorem exSphereAndPlane_sphereList :
    exSphereAndPlane.sphereList = [(⟨1, ⟨0, 0, 1⟩, true⟩ : ExSphere)] :=
  firstN_one _ (by decide)

theorem exOnePlane_sphereList : exOnePlane.sphereList = [] := firstN_zero _

theorem exNoWalls_sphereList : exNoWalls.sphereList = [] := firstN_zero _

theorem exOneSphere_sphereList :
    exOneSphere.sphereList = [(⟨5, ⟨0, 0, 0⟩, true⟩ : ExSphere)] :=
  firstN_one _ (by decide)


theorem exOnePlane_separation :
    (⟨0, 0, -1⟩ : Scalar3) = -(vec_to_scalar3
      ((exWalls exOnePlane).m_field.firstDisplacement WallKind.plane
        (exWalls exOnePlane).m_pos)) := by
  rw [Scalar3.ext_iff3]
  norm_num [exWalls, exOnePlane, exNoWalls, EvaluatorWalls.ctor, EvaluatorWalls.setDiameter,
    EvaluatorWalls.setCharge, wall_type.firstDisplacement, exWallData_plane, vec3.ofScalar3,
    vec_to_scalar3, Scalar3.neg_x, Scalar3.neg_y, Scalar3.neg_z]

theorem exOnePlane_guard :
    dot (-(vec_to_scalar3 ((exWalls exOnePlane).m_field.firstDisplacement WallKind.plane
        (exWalls exOnePlane).m_pos)))
      (-(vec_to_scalar3 ((exWalls exOnePlane).m_field.firstDisplacement WallKind.plane
        (exWalls exOnePlane).m_pos))) ≥ (exWalls exOnePlane).m_params.rminsq := by
  rw [← exOnePlane_separation]
  norm_num [dot, exWalls, exParams, make_wall_params, EvaluatorWalls.ctor,
    EvaluatorWalls.setDiameter, EvaluatorWalls.setCharge]

theorem exOnePlane_eval :
    wallEval exPotential (exWalls exOnePlane)
      (dot (-(vec_to_scalar3 ((exWalls exOnePlane).m_field.firstDisplacement WallKind.plane
        (exWalls exOnePlane).m_pos)))
      (-(vec_to_scalar3 ((exWalls exOnePlane).m_field.firstDisplacement WallKind.plane
        (exWalls exOnePlane).m_pos)))) = (true, 4, -16) := by
  rw [← exOnePlane_separation]
  norm_num [dot, exWalls, exParams, make_wall_params, EvaluatorWalls.ctor,
    EvaluatorWalls.setDiameter, EvaluatorWalls.setCharge, wallEval, wallEvaluator,
    exPotential_needsDiameter, exPotential_needsCharge, exPotential_ctor,
    exPotential_setDiameter, exPotential_setCharge, exPotential_eval]

theorem exGroup_built : make_wall_field_params exWallData exGroup = Except.ok exBuilt :=
  make_wall_field_params_ok exWallData exGroup (by decide) (by decide) (by decide)

theorem exMirrorSphere_displacement :
    (exWalls exMirrorSphere).m_field.firstDisplacement WallKind.sphere
        (exWalls exMirrorSphere).m_pos
      = -((exWalls exOneSphere).m_field.firstDisplacement WallKind.sphere
        (exWalls exOneSphere).m_pos) := by
  have h : ∀ a b : vec3, a.x = b.x → a.y = b.y → a.z = b.z → a = b := by
    intro a b h1 h2 h3; cases a; cases b; simp_all
  apply h <;>
    norm_num [wall_type.firstDisplacement, exWalls, exMirrorSphere, exOneSphere, exNoWalls,
      EvaluatorWalls.ctor, EvaluatorWalls.setDiameter, EvaluatorWalls.setCharge,
      vec3.ofScalar3, exWallData_sphere, vec3_neg_x, vec3_neg_y, vec3_neg_z]

theorem exTiltedWalls_displacement :
    exTiltedWalls.m_field.firstDisplacement WallKind.plane exTiltedWalls.m_pos
      = ⟨3 / 5, 4 / 5, 0⟩ := by
  have h := exWallData_plane_unit ⟨1, 2, 3⟩ ⟨3 / 5, 4 / 5, 0⟩ (by norm_num)
  norm_num at h
  norm_num [wall_type.firstDisplacement, exTiltedWalls, exTiltedPlane,
    EvaluatorWalls.ctor, EvaluatorWalls.setDiameter, EvaluatorWalls.setCharge,
    vec3.ofScalar3, h]

set_option maxRecDepth 100000 in
/-- The familiar binary64 sum 0.1 + 0.2 = 0.30000000000000004 = 0x1.3333333333334p-2. -/
theorem dbl_add_0_1_0_2 : Dbl.add dbl_0_1 dbl_0_2 = ⟨5404319552844596, -54⟩ := by rfl

/-- The three double constants are within half a unit in the last place of 1/10, 2/10 and
3/10. -/
theorem dbl_constants_nearest :
    |Dbl.toRat dbl_0_1 - 1 / 10| ≤ 1 / 2 ^ 57 ∧ |Dbl.toRat dbl_0_2 - 2 / 10| ≤ 1 / 2 ^ 56 ∧
      |Dbl.toRat dbl_0_3 - 3 / 10| ≤ 1 / 2 ^ 55 := by
  refine ⟨?_, ?_, ?_⟩ <;>
    · rw [abs_le]
      norm_num [Dbl.toRat, dbl_0_1, dbl_0_2, dbl_0_3, zpow_neg]

set_option maxRecDepth 100000 in
/-- The wall of the binary64 run passes the guard, rsq = 0x1.1eb851eb851ecp-3. -/
theorem exDoubleRun_rsq :
    dotIn doubleArith exDoubleDx exDoubleDx = (⟨5044031582654956, -55⟩ : Dbl) := by rfl

set_option maxRecDepth 100000 in
/-- The force and the three diagonal virial entries returned by the binary64 run. -/
theorem exDoubleRun_values :
    exDoubleRun.F = ⟨(⟨-5764607523034236, -59⟩ : Dbl), (⟨-5764607523034236, -58⟩ : Dbl),
        (⟨-8646911284551352, -58⟩ : Dbl)⟩ ∧
      exDoubleRun.virial.xx = (⟨4611686018427389, -62⟩ : Dbl) ∧
      exDoubleRun.virial.yy = (⟨4611686018427389, -60⟩ : Dbl) ∧
      exDoubleRun.virial.zz = (⟨5188146770730811, -59⟩ : Dbl) := by
  refine ⟨?_, ?_, ?_, ?_⟩ <;> rfl

set_option maxRecDepth 100000 in
/-- The trace virial[0] + virial[3] + virial[5] of the binary64 run,
0x1.cac083126e979p-7. -/
theorem exDoubleRun_trace :
    Dbl.add (Dbl.add exDoubleRun.virial.xx exDoubleRun.virial.yy) exDoubleRun.virial.zz
      = ⟨8070450532247929, -59⟩ := by rfl

set_option maxRecDepth 100000 in
/-- The product force_divr * rsq of the binary64 run, 0x1.cac083126e97ap-7. -/
theorem exDoubleRun_force_times_rsq :
    Dbl.mul dbl_0_1 (dotIn doubleArith exDoubleDx exDoubleDx) = ⟨8070450532247930, -59⟩ := by
  rfl

set_option maxRecDepth 100000 in
/-- The dot product dot(F, dx) of the binary64 run, equal to the trace. -/
theorem exDoubleRun_dot_force :
    dotIn doubleArith exDoubleRun.F exDoubleDx = (⟨8070450532247929, -59⟩ : Dbl) := by rfl

/-! ## Claims -/

/-- C1: for a collection holding exactly one wall (sphere, cylinder or plane) that passes
the rminsq guard and that the potential reports as evaluated with outputs (f, e),
evalForceEnergyAndVirial returns force = dx * f with dx the negated geometry displacement,
and energy = e; neither is halved. -/
theorem c1_single_wall_force_energy {W : WallData} (E : PairEvaluator)
    (self : EvaluatorWalls W E) (k : WallKind) (F0 : Scalar3) (e0 : Scalar) (v0 : List Scalar)
    (f e : Scalar) (dx : Scalar3) (hv : v0.length = 6) (h1 : self.m_field.holdsOne k)
    (hdx : dx = -(vec_to_scalar3 (self.m_field.firstDisplacement k self.m_pos)))
    (hmin : dot dx dx ≥ self.m_params.rminsq)
    (hev : wallEval E self (dot dx dx) = (true, f, e)) :
    ∃ r, evalForceEnergyAndVirial E self F0 e0 v0 = some r ∧
      r.F = dx * f ∧ r.energy = e := by
  subst hdx
  exact ⟨_, eval_single E self k F0 e0 v0 f e hv h1 hmin hev, rfl, rfl⟩

/-- Worked example of C1: one plane through the origin with normal (0, 0, 1), particle at
(0, 0, 1): force_divr = 4, pair_eng = -16. -/
theorem c1_single_wall_force_energy_witness :
    ∃ r, evalForceEnergyAndVirial exPotential (exWalls exOnePlane) ⟨1, 2, 3⟩ 4
        [5, 6, 7, 8, 9, 10] = some r ∧
      r.F = (⟨0, 0, -1⟩ : Scalar3) * (4 : Scalar) ∧ r.energy = -16 :=
  c1_single_wall_force_energy exPotential (exWalls exOnePlane) WallKind.plane ⟨1, 2, 3⟩ 4
    [5, 6, 7, 8, 9, 10] 4 (-16) ⟨0, 0, -1⟩ rfl ⟨rfl, rfl, rfl⟩ exOnePlane_separation
    (exOnePlane_separation ▸ exOnePlane_guard) (exOnePlane_separation ▸ exOnePlane_eval)

/-- C2: for a collection holding exactly one wall that is evaluated with force_divr = f, the
six virial components returned are f*dx.x*dx.x, f*dx.x*dx.y, f*dx.x*dx.z, f*dx.y*dx.y,
f*dx.y*dx.z, f*dx.z*dx.z in index order 0..5, whichever the kind of the wall. -/
theorem c2_single_wall_virial {W : WallData} (E : PairEvaluator)
    (self : EvaluatorWalls W E) (k : WallKind) (F0 : Scalar3) (e0 : Scalar) (v0 : List Scalar)
    (f e : Scalar) (dx : Scalar3) (hv : v0.length = 6) (h1 : self.m_field.holdsOne k)
    (hdx : dx = -(vec_to_scalar3 (self.m_field.firstDisplacement k self.m_pos)))
    (hmin : dot dx dx ≥ self.m_params.rminsq)
    (hev : wallEval E self (dot dx dx) = (true, f, e)) :
    ∃ r, evalForceEnergyAndVirial E self F0 e0 v0 = some r ∧
      r.virial = [f * dx.x * dx.x, f * dx.x * dx.y, f * dx.x * dx.z,
                  f * dx.y * dx.y, f * dx.y * dx.z, f * dx.z * dx.z] := by
  subst hdx
  exact ⟨_, eval_single E self k F0 e0 v0 f e hv h1 hmin hev, rfl⟩

/-- Worked example of C2: the plane of the C1 example, dx = (0, 0, -1), f = 4. -/
theorem c2_single_wall_virial_witness :
    ∃ r, evalForceEnergyAndVirial exPotential (exWalls exOnePlane) ⟨1, 2, 3⟩ 4
        [5, 6, 7, 8, 9, 10] = some r ∧
      r.virial = [4 * (0 : Scalar) * 0, 4 * (0 : Scalar) * 0, 4 * (0 : Scalar) * (-1),
                  4 * (0 : Scalar) * 0, 4 * (0 : Scalar) * (-1), 4 * (-1 : Scalar) * (-1)] :=
  c2_single_wall_virial exPotential (exWalls exOnePlane) WallKind.plane ⟨1, 2, 3⟩ 4
    [5, 6, 7, 8, 9, 10] 4 (-16) ⟨0, 0, -1⟩ rfl ⟨rfl, rfl, rfl⟩ exOnePlane_separation
    (exOnePlane_separation ▸ exOnePlane_guard) (exOnePlane_separation ▸ exOnePlane_eval)

/-- C3 (superposition): when the combined counts of two collections A and B fit the
capacities, evaluating the collection that holds the walls of A and of B gives a force, an
energy and six virial components that are the component-wise sums of the results for A
alone and for B alone, whatever the kinds of the walls. -/
theorem c3_superposition {W : WallData} (E : PairEvaluator) (pos : Scalar3)
    (p : EvaluatorWalls.param_type E) (di qi : Scalar) (A B : wall_type W)
    (F0 : Scalar3) (e0 : Scalar) (v0 : List Scalar) (hv : v0.length = 6)
    (hcap : (A.join B).inCapacity) :
    ∃ rA rB rAB,
      evalForceEnergyAndVirial E ⟨pos, A, p, di, qi⟩ F0 e0 v0 = some rA ∧
      evalForceEnergyAndVirial E ⟨pos, B, p, di, qi⟩ F0 e0 v0 = some rB ∧
      evalForceEnergyAndVirial E ⟨pos, A.join B, p, di, qi⟩ F0 e0 v0 = some rAB ∧
      rAB.F = rA.F + rB.F ∧ rAB.energy = rA.energy + rB.energy ∧
      rAB.virial.length = 6 ∧
      rAB.virial = List.zipWith (fun a b => a + b) rA.virial rB.virial := by
  refine ⟨_, _, _, eval_eq E _ F0 e0 v0 hv (inCapacity_join_left A B hcap),
    eval_eq E _ F0 e0 v0 hv (inCapacity_join_right A B hcap),
    eval_eq E _ F0 e0 v0 hv hcap, ?_, ?_, ?_, ?_⟩
  · simp only [displacements_join A B pos hcap]
    rw [total_congr E ⟨pos, A.join B, p, di, qi⟩ ⟨pos, A, p, di, qi⟩ rfl rfl rfl,
      total_congr E ⟨pos, B, p, di, qi⟩ ⟨pos, A, p, di, qi⟩ rfl rfl rfl]
    simp only [total, displacements, sumOver_append, Scalar3.ext_iff3, Scalar3.add_x,
      Scalar3.add_y, Scalar3.add_z]
    refine ⟨?_, ?_, ?_⟩ <;> ring
  · simp only [displacements_join A B pos hcap]
    rw [total_congr E ⟨pos, A.join B, p, di, qi⟩ ⟨pos, A, p, di, qi⟩ rfl rfl rfl,
      total_congr E ⟨pos, B, p, di, qi⟩ ⟨pos, A, p, di, qi⟩ rfl rfl rfl]
    simp only [total, displacements, sumOver_append]
    ring
  · simp [total]
  · simp only [displacements_join A B pos hcap]
    rw [total_congr E ⟨pos, A.join B, p, di, qi⟩ ⟨pos, A, p, di, qi⟩ rfl rfl rfl,
      total_congr E ⟨pos, B, p, di, qi⟩ ⟨pos, A, p, di, qi⟩ rfl rfl rfl]
    simp only [total, displacements, sumOver_append, List.zipWith_cons_cons,
      List.zipWith_nil_left, List.cons.injEq, and_true]
    refine ⟨?_, ?_, ?_, ?_, ?_, ?_⟩ <;> ring

/-- Worked example of C3: one sphere and one plane, two walls of different kinds. -/
theorem c3_superposition_witness :
    ∃ rA rB rAB,
      evalForceEnergyAndVirial exPotential ⟨⟨0, 0, 1⟩, exOneSphere, exParams, 1, 0⟩
        ⟨1, 2, 3⟩ 4 [5, 6, 7, 8, 9, 10] = some rA ∧
      evalForceEnergyAndVirial exPotential ⟨⟨0, 0, 1⟩, exOnePlane, exParams, 1, 0⟩
        ⟨1, 2, 3⟩ 4 [5, 6, 7, 8, 9, 10] = some rB ∧
      evalForceEnergyAndVirial exPotential
        ⟨⟨0, 0, 1⟩, exOneSphere.join exOnePlane, exParams, 1, 0⟩
        ⟨1, 2, 3⟩ 4 [5, 6, 7, 8, 9, 10] = some rAB ∧
      rAB.F = rA.F + rB.F ∧ rAB.energy = rA.energy + rB.energy ∧
      rAB.virial.length = 6 ∧
      rAB.virial = List.zipWith (fun a b => a + b) rA.virial rB.virial :=
  c3_superposition exPotential ⟨0, 0, 1⟩ exParams 1 0 exOneSphere exOnePlane ⟨1, 2, 3⟩ 4
    [5, 6, 7, 8, 9, 10] rfl ⟨by decide, by decide, by decide⟩

/-- C4: with numSpheres = numCylinders = numPlanes = 0 the call returns force (0,0,0),
energy 0 and six zero virial components, and no call is made on the potential. -/
theorem c4_no_walls {W : WallData} (E : PairEvaluator) (self : EvaluatorWalls W E)
    (F0 : Scalar3) (e0 : Scalar) (v0 : List Scalar) (hv : v0.length = 6)
    (hs : self.m_field.numSpheres = 0) (hc : self.m_field.numCylinders = 0)
    (hp : self.m_field.numPlanes = 0) :
    evalForceEnergyAndVirial E self F0 e0 v0 =
      some { F := ⟨0, 0, 0⟩, energy := 0, virial := [0, 0, 0, 0, 0, 0], calls := [] } := by
  rw [eval_eq E self F0 e0 v0 hv (by simp [wall_type.inCapacity, hs, hc, hp])]
  simp [displacements, wall_type.sphereList, wall_type.cylinderList, wall_type.planeList,
    hs, hc, hp, firstN, total, sumOver]

/-- Worked example of C4: the empty collection, with a destination holding other values. -/
theorem c4_no_walls_witness :
    evalForceEnergyAndVirial exPotential (exWalls exNoWalls) ⟨1, 2, 3⟩ 4 [5, 6, 7, 8, 9, 10] =
      some { F := ⟨0, 0, 0⟩, energy := 0, virial := [0, 0, 0, 0, 0, 0], calls := [] } :=
  c4_no_walls exPotential (exWalls exNoWalls) ⟨1, 2, 3⟩ 4 [5, 6, 7, 8, 9, 10] rfl rfl rfl rfl

/-- C5: a wall of any kind whose squared distance rsq is strictly below rminsq contributes
nothing, for every potential: the loop body leaves force, energy, virial (and the call
record) untouched, and evaluating a collection gives the same result as evaluating the
collection from which all such walls have been removed. -/
theorem c5_below_rminsq_contributes_nothing {W : WallData} (E : PairEvaluator)
    (pos : Scalar3) (p : EvaluatorWalls.param_type E) (di qi : Scalar) (A B : wall_type W)
    (F0 : Scalar3) (e0 : Scalar) (v0 : List Scalar) (hv : v0.length = 6)
    (hA : A.inCapacity) (hB : B.inCapacity)
    (hs : B.sphereList = A.sphereList.filter (fun w =>
      decide (p.rminsq ≤ rsqOf (W.vecInsPtToWallSphere w (vec3.ofScalar3 pos)))))
    (hc : B.cylinderList = A.cylinderList.filter (fun w =>
      decide (p.rminsq ≤ rsqOf (W.vecInsPtToWallCylinder w (vec3.ofScalar3 pos)))))
    (hp : B.planeList = A.planeList.filter (fun w =>
      decide (p.rminsq ≤ rsqOf (W.vecInsPtToWallPlane w (vec3.ofScalar3 pos))))) :
    (∀ (shift : Bool) (dxv : vec3) (o : Outputs E.param_type),
      dot (-(vec_to_scalar3 dxv)) (-(vec_to_scalar3 dxv)) < p.rminsq →
        wallBody E ⟨pos, A, p, di, qi⟩ shift dxv o = some o) ∧
    ∃ r, evalForceEnergyAndVirial E ⟨pos, A, p, di, qi⟩ F0 e0 v0 = some r ∧
      evalForceEnergyAndVirial E ⟨pos, B, p, di, qi⟩ F0 e0 v0 = some r := by
  refine ⟨fun shift dxv o h => wallBody_skip E _ shift dxv o h, _,
    eval_eq E _ F0 e0 v0 hv hA, ?_⟩
  rw [eval_eq E _ F0 e0 v0 hv hB,
    total_congr E ⟨pos, B, p, di, qi⟩ ⟨pos, A, p, di, qi⟩ rfl rfl rfl]
  have hd := displacements_filter A B pos (fun d => decide (p.rminsq ≤ rsqOf d)) hs hc hp
  simp only [hd]
  have hF : ∀ d, (fun d => decide (p.rminsq ≤ rsqOf d)) d = false →
      termForce E ⟨pos, A, p, di, qi⟩ d = 0 := by
    intro d hk
    simp only [decide_eq_false_iff_not] at hk
    simp [termForce, contributes, hk]
  have hE : ∀ d, (fun d => decide (p.rminsq ≤ rsqOf d)) d = false →
      termEnergy E ⟨pos, A, p, di, qi⟩ d = 0 := by
    intro d hk
    simp only [decide_eq_false_iff_not] at hk
    simp [termEnergy, contributes, hk]
  have hC : ∀ d, (fun d => decide (p.rminsq ≤ rsqOf d)) d = false →
      termCalls E ⟨pos, A, p, di, qi⟩ d = [] := by
    intro d hk
    simp only [decide_eq_false_iff_not] at hk
    simp [termCalls, hk]
  simp only [total]
  rw [sumOver_filter _ _ _ (fun d hk => by rw [hF d hk, mul_zero]),
    sumOver_filter _ _ _ (fun d hk => by rw [hF d hk, mul_zero]),
    sumOver_filter _ _ _ (fun d hk => by rw [hF d hk, mul_zero]),
    sumOver_filter _ _ _ hE,
    sumOver_filter _ _ _ (fun d hk => by rw [hF d hk, zero_mul, zero_mul]),
    sumOver_filter _ _ _ (fun d hk => by rw [hF d hk, zero_mul, zero_mul]),
    sumOver_filter _ _ _ (fun d hk => by rw [hF d hk, zero_mul, zero_mul]),
    sumOver_filter _ _ _ (fun d hk => by rw [hF d hk, zero_mul, zero_mul]),
    sumOver_filter _ _ _ (fun d hk => by rw [hF d hk, zero_mul, zero_mul]),
    sumOver_filter _ _ _ (fun d hk => by rw [hF d hk, zero_mul, zero_mul]),
    flatMap_filter _ _ _ hC]

/-- Worked example of C5: particle at (0, 0, 1), a sphere whose displacement is zero
(rsq = 0 < 1/4) and a plane at rsq = 1; the sphere can be removed. -/
theorem c5_below_rminsq_contributes_nothing_witness :
    (∀ (shift : Bool) (dxv : vec3) (o : Outputs exPotential.param_type),
      dot (-(vec_to_scalar3 dxv)) (-(vec_to_scalar3 dxv)) < exParams.rminsq →
        wallBody exPotential ⟨⟨0, 0, 1⟩, exSphereAndPlane, exParams, 1, 0⟩ shift dxv o
          = some o) ∧
    ∃ r, evalForceEnergyAndVirial exPotential ⟨⟨0, 0, 1⟩, exSphereAndPlane, exParams, 1, 0⟩
        ⟨1, 2, 3⟩ 4 [5, 6, 7, 8, 9, 10] = some r ∧
      evalForceEnergyAndVirial exPotential ⟨⟨0, 0, 1⟩, exOnePlane, exParams, 1, 0⟩
        ⟨1, 2, 3⟩ 4 [5, 6, 7, 8, 9, 10] = some r :=
  c5_below_rminsq_contributes_nothing exPotential ⟨0, 0, 1⟩ exParams 1 0 exSphereAndPlane
    exOnePlane ⟨1, 2, 3⟩ 4 [5, 6, 7, 8, 9, 10] rfl ⟨by decide, by decide, by decide⟩
    ⟨by decide, by decide, by decide⟩
    (by
      rw [exOnePlane_sphereList, exSphereAndPlane_sphereList]
      norm_num [exParams, make_wall_params, rsqOf, separation, dot,
        exWallData_sphere, vec3.ofScalar3, vec_to_scalar3, Scalar3.neg_x, Scalar3.neg_y,
        Scalar3.neg_z])
    (by
      simp [wall_type.cylinderList, firstN, exSphereAndPlane, exOnePlane, exNoWalls])
    (by
      rw [exOnePlane_planeList, exSphereAndPlane_planeList]
      norm_num [exParams, make_wall_params, rsqOf, separation, dot,
        exWallData_plane, vec3.ofScalar3, vec_to_scalar3, Scalar3.neg_x, Scalar3.neg_y,
        Scalar3.neg_z])

/-- C6: for a potential that reports not evaluated whenever rsq is at or beyond rcutsq, a
wall at or beyond the cutoff contributes zero force, energy and virial: a pass of the loop
body in which evalForceAndEnergy returned false leaves force, energy and virial as they
were whatever the potential left in its two outputs, and evaluating a collection gives the
same force, energy and virial as evaluating it without the walls at or beyond the cutoff. -/
theorem c6_beyond_cutoff_contributes_nothing {W : WallData} (E : PairEvaluator)
    (pos : Scalar3) (p : EvaluatorWalls.param_type E) (di qi : Scalar) (A B : wall_type W)
    (F0 : Scalar3) (e0 : Scalar) (v0 : List Scalar) (hv : v0.length = 6)
    (hA : A.inCapacity) (hB : B.inCapacity)
    (hcut : ∀ rsq, p.rcutsq ≤ rsq → (wallEval E ⟨pos, A, p, di, qi⟩ rsq).1 = false)
    (hs : B.sphereList = A.sphereList.filter (fun w =>
      decide (rsqOf (W.vecInsPtToWallSphere w (vec3.ofScalar3 pos)) < p.rcutsq)))
    (hc : B.cylinderList = A.cylinderList.filter (fun w =>
      decide (rsqOf (W.vecInsPtToWallCylinder w (vec3.ofScalar3 pos)) < p.rcutsq)))
    (hp : B.planeList = A.planeList.filter (fun w =>
      decide (rsqOf (W.vecInsPtToWallPlane w (vec3.ofScalar3 pos)) < p.rcutsq))) :
    (∀ (dxv : vec3) (o : Outputs E.param_type),
      p.rminsq ≤ dot (-(vec_to_scalar3 dxv)) (-(vec_to_scalar3 dxv)) →
      (E.evalForceAndEnergy (wallEvaluator E ⟨pos, A, p, di, qi⟩
        (dot (-(vec_to_scalar3 dxv)) (-(vec_to_scalar3 dxv)))) 0 0 true).1 = false →
      ∃ o', wallBody E ⟨pos, A, p, di, qi⟩ true dxv o = some o' ∧
        o'.F = o.F ∧ o'.energy = o.energy ∧ o'.virial = o.virial) ∧
    ∃ rA rB, evalForceEnergyAndVirial E ⟨pos, A, p, di, qi⟩ F0 e0 v0 = some rA ∧
      evalForceEnergyAndVirial E ⟨pos, B, p, di, qi⟩ F0 e0 v0 = some rB ∧
      rA.F = rB.F ∧ rA.energy = rB.energy ∧ rA.virial = rB.virial := by
  refine ⟨fun dxv o hmin hev =>
      ⟨_, wallBody_not_evaluated E _ dxv o hmin hev, rfl, rfl, rfl⟩,
    _, _, eval_eq E _ F0 e0 v0 hv hA, eval_eq E _ F0 e0 v0 hv hB, ?_⟩
  rw [total_congr E ⟨pos, B, p, di, qi⟩ ⟨pos, A, p, di, qi⟩ rfl rfl rfl]
  have hd := displacements_filter A B pos (fun d => decide (rsqOf d < p.rcutsq)) hs hc hp
  simp only [hd]
  have hF : ∀ d, (fun d => decide (rsqOf d < p.rcutsq)) d = false →
      termForce E ⟨pos, A, p, di, qi⟩ d = 0 := by
    intro d hk
    simp only [decide_eq_false_iff_not, not_lt] at hk
    simp [termForce, contributes, hcut _ hk]
  have hE : ∀ d, (fun d => decide (rsqOf d < p.rcutsq)) d = false →
      termEnergy E ⟨pos, A, p, di, qi⟩ d = 0 := by
    intro d hk
    simp only [decide_eq_false_iff_not, not_lt] at hk
    simp [termEnergy, contributes, hcut _ hk]
  simp only [total]
  rw [sumOver_filter _ _ _ (fun d hk => by rw [hF d hk, mul_zero]),
    sumOver_filter _ _ _ (fun d hk => by rw [hF d hk, mul_zero]),
    sumOver_filter _ _ _ (fun d hk => by rw [hF d hk, mul_zero]),
    sumOver_filter _ _ _ hE,
    sumOver_filter _ _ _ (fun d hk => by rw [hF d hk, zero_mul, zero_mul]),
    sumOver_filter _ _ _ (fun d hk => by rw [hF d hk, zero_mul, zero_mul]),
    sumOver_filter _ _ _ (fun d hk => by rw [hF d hk, zero_mul, zero_mul]),
    sumOver_filter _ _ _ (fun d hk => by rw [hF d hk, zero_mul, zero_mul]),
    sumOver_filter _ _ _ (fun d hk => by rw [hF d hk, zero_mul, zero_mul]),
    sumOver_filter _ _ _ (fun d hk => by rw [hF d hk, zero_mul, zero_mul])]
  exact ⟨rfl, rfl, rfl⟩

/-- Worked example of C6: a single inside = true sphere centred at the origin, particle at
(0, 0, 4): rsq = 16 is beyond rcutsq = 9, so the result is that of the empty collection. -/
theorem c6_beyond_cutoff_contributes_nothing_witness :
    (∀ (dxv : vec3) (o : Outputs exPotential.param_type),
      exParams.rminsq ≤ dot (-(vec_to_scalar3 dxv)) (-(vec_to_scalar3 dxv)) →
      (exPotential.evalForceAndEnergy (wallEvaluator exPotential
          ⟨⟨0, 0, 4⟩, exOneSphere, exParams, 1, 0⟩
        (dot (-(vec_to_scalar3 dxv)) (-(vec_to_scalar3 dxv)))) 0 0 true).1 = false →
      ∃ o', wallBody exPotential ⟨⟨0, 0, 4⟩, exOneSphere, exParams, 1, 0⟩ true dxv o
          = some o' ∧
        o'.F = o.F ∧ o'.energy = o.energy ∧ o'.virial = o.virial) ∧
    ∃ rA rB, evalForceEnergyAndVirial exPotential ⟨⟨0, 0, 4⟩, exOneSphere, exParams, 1, 0⟩
        ⟨1, 2, 3⟩ 4 [5, 6, 7, 8, 9, 10] = some rA ∧
      evalForceEnergyAndVirial exPotential ⟨⟨0, 0, 4⟩, exNoWalls, exParams, 1, 0⟩
        ⟨1, 2, 3⟩ 4 [5, 6, 7, 8, 9, 10] = some rB ∧
      rA.F = rB.F ∧ rA.energy = rB.energy ∧ rA.virial = rB.virial :=
  c6_beyond_cutoff_contributes_nothing exPotential ⟨0, 0, 4⟩ exParams 1 0 exOneSphere
    exNoWalls ⟨1, 2, 3⟩ 4 [5, 6, 7, 8, 9, 10] rfl ⟨by decide, by decide, by decide⟩
    ⟨by decide, by decide, by decide⟩
    (by
      intro rsq h
      have h2 : ¬ rsq < 9 := not_lt.mpr h
      simp [wallEval, wallEvaluator, exPotential_needsDiameter, exPotential_needsCharge,
        exPotential_ctor, exPotential_setDiameter, exPotential_eval, exParams,
        make_wall_params, h2])
    (by
      rw [exOneSphere_sphereList, exNoWalls_sphereList]
      norm_num [exParams, make_wall_params, rsqOf, separation, dot,
        exWallData_sphere, vec3.ofScalar3, vec_to_scalar3, Scalar3.neg_x, Scalar3.neg_y,
        Scalar3.neg_z])
    (by simp [wall_type.cylinderList, firstN, exOneSphere, exNoWalls])
    (by simp [wall_type.planeList, firstN, exOneSphere, exNoWalls])

/-- C7, the code at the failing input: a wall group with 2^32 sphere descriptors does not
fail. The length is stored in an unsigned int, where it becomes 0, the capacity check
passes and a collection without walls is returned. -/
theorem c7_count_wraps_unsigned :
    make_wall_field_params exWallData
        ⟨List.replicate (2 ^ 32) ⟨1, ⟨0, 0, 0⟩, true⟩, [], []⟩
      = Except.ok exNoWalls :=
  make_wall_field_params_zero exWallData _
    (by rw [List.length_replicate]; rfl) rfl rfl

/-- C8 as stated fails: with the destination holding F = (1, 2, 3), energy = 4 and virial
5..10, the one-plane example leaves in the destination the walls' contribution alone, not
the prior content plus the contribution. -/
theorem c8_not_additive_counterexample :
    ∃ r w, evalForceEnergyAndVirial exPotential (exWalls exOnePlane) ⟨1, 2, 3⟩ 4
        [5, 6, 7, 8, 9, 10] = some r ∧
      evalForceEnergyAndVirial exPotential (exWalls exOnePlane) ⟨0, 0, 0⟩ 0
        [0, 0, 0, 0, 0, 0] = some w ∧
      r.F ≠ (⟨1, 2, 3⟩ : Scalar3) + w.F ∧ r.energy ≠ 4 + w.energy ∧
      r.virial ≠ List.zipWith (fun a b => a + b) [5, 6, 7, 8, 9, 10] w.virial := by
  refine ⟨_, _, eval_single exPotential (exWalls exOnePlane) WallKind.plane ⟨1, 2, 3⟩ 4
      [5, 6, 7, 8, 9, 10] 4 (-16) rfl ⟨rfl, rfl, rfl⟩ exOnePlane_guard exOnePlane_eval,
    eval_single exPotential (exWalls exOnePlane) WallKind.plane ⟨0, 0, 0⟩ 0
      [0, 0, 0, 0, 0, 0] 4 (-16) rfl ⟨rfl, rfl, rfl⟩ exOnePlane_guard exOnePlane_eval,
    ?_, ?_, ?_⟩
  · simp only [separation, ← exOnePlane_separation]
    rw [Ne, Scalar3.ext_iff3]
    norm_num [Scalar3.add_x, Scalar3.mul_x]
  · norm_num
  · simp only [separation, ← exOnePlane_separation]
    norm_num

/-- C8 amended: evalForceEnergyAndVirial resets its destination before accumulating, so
for a six-element virial buffer and a collection within capacity the content after the
call does not depend on the prior content: it is the walls' contribution alone. -/
theorem c8_destination_overwritten {W : WallData} (E : PairEvaluator)
    (self : EvaluatorWalls W E) (F0 F1 : Scalar3) (e0 e1 : Scalar) (v0 v1 : List Scalar)
    (hv0 : v0.length = 6) (hv1 : v1.length = 6) (hcap : self.m_field.inCapacity) :
    ∃ r, evalForceEnergyAndVirial E self F0 e0 v0 = some r ∧
      evalForceEnergyAndVirial E self F1 e1 v1 = some r ∧
      evalForceEnergyAndVirial E self ⟨0, 0, 0⟩ 0 [0, 0, 0, 0, 0, 0] = some r :=
  ⟨_, eval_eq E self F0 e0 v0 hv0 hcap, eval_eq E self F1 e1 v1 hv1 hcap,
    eval_eq E self ⟨0, 0, 0⟩ 0 [0, 0, 0, 0, 0, 0] rfl hcap⟩

/-- Worked example of the amended C8 on the one-plane collection. -/
theorem c8_destination_overwritten_witness :
    ∃ r, evalForceEnergyAndVirial exPotential (exWalls exOnePlane) ⟨1, 2, 3⟩ 4
        [5, 6, 7, 8, 9, 10] = some r ∧
      evalForceEnergyAndVirial exPotential (exWalls exOnePlane) ⟨-1, 0, 7⟩ 0
        [1, 1, 1, 1, 1, 1] = some r ∧
      evalForceEnergyAndVirial exPotential (exWalls exOnePlane) ⟨0, 0, 0⟩ 0
        [0, 0, 0, 0, 0, 0] = some r :=
  c8_destination_overwritten exPotential (exWalls exOnePlane) ⟨1, 2, 3⟩ ⟨-1, 0, 7⟩ 4 0
    [5, 6, 7, 8, 9, 10] [1, 1, 1, 1, 1, 1] rfl rfl ⟨by decide, by decide, by decide⟩

/-- C9: for every wall that passes the guard, the potential object on which
evalForceAndEnergy is invoked is the one constructed from (rsq, rcutsq, params) to which
setDiameter(diameter, 0) has been applied if and only if needsDiameter, and then
setCharge(charge, 0) if and only if needsCharge, where diameter and charge are the values
given to EvaluatorWalls::setDiameter and setCharge: the force, energy and virial added are
the outputs of that object, and the calls recorded are exactly those; and in a whole
evaluation every setDiameter call is (diameter, 0) with needsDiameter true and every
setCharge call is (charge, 0) with needsCharge true. -/
theorem c9_diameter_charge_calls {W : WallData} (E : PairEvaluator)
    (self : EvaluatorWalls W E) (diameter charge : Scalar)
    (F0 : Scalar3) (e0 : Scalar) (v0 : List Scalar) (hv : v0.length = 6)
    (hcap : self.m_field.inCapacity) :
    (∀ (dxv : vec3) (o : Outputs E.param_type) (dx : Scalar3) (rsq : Scalar) (st : E.State),
      o.virial.length = 6 → dx = -(vec_to_scalar3 dxv) → rsq = dot dx dx →
      self.m_params.rminsq ≤ rsq →
      st = (if E.needsCharge then
              E.setCharge
                (if E.needsDiameter then
                  E.setDiameter (E.ctor rsq self.m_params.rcutsq self.m_params.params)
                    diameter 0
                else E.ctor rsq self.m_params.rcutsq self.m_params.params) charge 0
            else
              (if E.needsDiameter then
                  E.setDiameter (E.ctor rsq self.m_params.rcutsq self.m_params.params)
                    diameter 0
                else E.ctor rsq self.m_params.rcutsq self.m_params.params)) →
      ∃ o', wallBody E ((self.setDiameter diameter).setCharge charge) true dxv o = some o' ∧
        o'.F = (if (E.evalForceAndEnergy st 0 0 true).1
          then o.F + dx * (E.evalForceAndEnergy st 0 0 true).2.1 else o.F) ∧
        o'.energy = (if (E.evalForceAndEnergy st 0 0 true).1
          then o.energy + (E.evalForceAndEnergy st 0 0 true).2.2 else o.energy) ∧
        o'.virial = (if (E.evalForceAndEnergy st 0 0 true).1
          then List.zipWith (fun a b => a + b) o.virial
            [(E.evalForceAndEnergy st 0 0 true).2.1 * dx.x * dx.x,
             (E.evalForceAndEnergy st 0 0 true).2.1 * dx.x * dx.y,
             (E.evalForceAndEnergy st 0 0 true).2.1 * dx.x * dx.z,
             (E.evalForceAndEnergy st 0 0 true).2.1 * dx.y * dx.y,
             (E.evalForceAndEnergy st 0 0 true).2.1 * dx.y * dx.z,
             (E.evalForceAndEnergy st 0 0 true).2.1 * dx.z * dx.z]
          else o.virial) ∧
        o'.calls = o.calls
          ++ [Call.construct rsq self.m_params.rcutsq self.m_params.params]
          ++ (if E.needsDiameter then [Call.setDiameter diameter 0] else [])
          ++ (if E.needsCharge then [Call.setCharge charge 0] else [])
          ++ [Call.evalForceAndEnergy 0 0 true]) ∧
    ∃ r, evalForceEnergyAndVirial E ((self.setDiameter diameter).setCharge charge) F0 e0 v0
        = some r ∧
      (∀ a b, Call.setDiameter a b ∈ r.calls →
        E.needsDiameter = true ∧ a = diameter ∧ b = 0) ∧
      (∀ a b, Call.setCharge a b ∈ r.calls →
        E.needsCharge = true ∧ a = charge ∧ b = 0) := by
  refine ⟨?_, _, eval_eq E _ F0 e0 v0 hv hcap, ?_, ?_⟩
  · intro dxv o dx rsq st ho hdx hrsq hmin hst
    subst hdx
    subst hrsq
    obtain ⟨F, en, vir, cs⟩ := o
    obtain ⟨a, b, c, d, e, f, rfl⟩ := list_length_six vir ho
    have hmin2 : ((self.setDiameter diameter).setCharge charge).m_params.rminsq
        ≤ rsqOf dxv := hmin
    have hobj : wallEvaluator E ((self.setDiameter diameter).setCharge charge) (rsqOf dxv)
        = st := by
      rw [hst]
      cases hD : E.needsDiameter <;> cases hC : E.needsCharge <;>
        simp [wallEvaluator, hD, hC, EvaluatorWalls.setDiameter, EvaluatorWalls.setCharge,
          rsqOf, separation]
    have hev : wallEval E ((self.setDiameter diameter).setCharge charge) (rsqOf dxv)
        = E.evalForceAndEnergy st 0 0 true := by
      rw [wallEval, hobj]
    refine ⟨_, wallBody_eq E _ dxv F en a b c d e f cs, ?_, ?_, ?_, ?_⟩
    · cases hr : (E.evalForceAndEnergy st 0 0 true).1 <;>
        simp [termForce, contributes, hmin2, hev, hr, Scalar3.add_mul_zero, separation]
    · cases hr : (E.evalForceAndEnergy st 0 0 true).1 <;>
        simp [termEnergy, contributes, hmin2, hev, hr]
    · cases hr : (E.evalForceAndEnergy st 0 0 true).1 <;>
        simp [termForce, contributes, hmin2, hev, hr, separation]
    · simp [termCalls, hmin2, wallCalls, EvaluatorWalls.setDiameter,
        EvaluatorWalls.setCharge]
      simp [rsqOf, separation, hmin]
  · intro a b h
    obtain ⟨rsq, hr⟩ := mem_total_calls E _ _ _ h
    cases hD : E.needsDiameter <;> cases hC : E.needsCharge <;>
      simp [wallCalls, hD, hC, EvaluatorWalls.setDiameter, EvaluatorWalls.setCharge] at hr ⊢
    all_goals exact hr
  · intro a b h
    obtain ⟨rsq, hr⟩ := mem_total_calls E _ _ _ h
    cases hD : E.needsDiameter <;> cases hC : E.needsCharge <;>
      simp [wallCalls, hD, hC, EvaluatorWalls.setDiameter, EvaluatorWalls.setCharge] at hr ⊢
    all_goals exact hr

/-- Worked example of C9: the one-plane collection with diameter 1 and charge 0 and a
potential that needs the diameter and not the charge. -/
theorem c9_diameter_charge_calls_witness :
    (∀ (dxv : vec3) (o : Outputs exPotential.param_type) (dx : Scalar3) (rsq : Scalar)
        (st : exPotential.State),
      o.virial.length = 6 → dx = -(vec_to_scalar3 dxv) → rsq = dot dx dx →
      (exWalls exOnePlane).m_params.rminsq ≤ rsq →
      st = (if exPotential.needsCharge then
              exPotential.setCharge
                (if exPotential.needsDiameter then
                  exPotential.setDiameter (exPotential.ctor rsq
                    (exWalls exOnePlane).m_params.rcutsq (exWalls exOnePlane).m_params.params)
                    1 0
                else exPotential.ctor rsq (exWalls exOnePlane).m_params.rcutsq
                  (exWalls exOnePlane).m_params.params) 0 0
            else
              (if exPotential.needsDiameter then
                  exPotential.setDiameter (exPotential.ctor rsq
                    (exWalls exOnePlane).m_params.rcutsq (exWalls exOnePlane).m_params.params)
                    1 0
                else exPotential.ctor rsq (exWalls exOnePlane).m_params.rcutsq
                  (exWalls exOnePlane).m_params.params)) →
      ∃ o', wallBody exPotential (((exWalls exOnePlane).setDiameter 1).setCharge 0) true dxv o
          = some o' ∧
        o'.F = (if (exPotential.evalForceAndEnergy st 0 0 true).1
          then o.F + dx * (exPotential.evalForceAndEnergy st 0 0 true).2.1 else o.F) ∧
        o'.energy = (if (exPotential.evalForceAndEnergy st 0 0 true).1
          then o.energy + (exPotential.evalForceAndEnergy st 0 0 true).2.2 else o.energy) ∧
        o'.virial = (if (exPotential.evalForceAndEnergy st 0 0 true).1
          then List.zipWith (fun a b => a + b) o.virial
            [(exPotential.evalForceAndEnergy st 0 0 true).2.1 * dx.x * dx.x,
             (exPotential.evalForceAndEnergy st 0 0 true).2.1 * dx.x * dx.y,
             (exPotential.evalForceAndEnergy st 0 0 true).2.1 * dx.x * dx.z,
             (exPotential.evalForceAndEnergy st 0 0 true).2.1 * dx.y * dx.y,
             (exPotential.evalForceAndEnergy st 0 0 true).2.1 * dx.y * dx.z,
             (exPotential.evalForceAndEnergy st 0 0 true).2.1 * dx.z * dx.z]
          else o.virial) ∧
        o'.calls = o.calls
          ++ [Call.construct rsq (exWalls exOnePlane).m_params.rcutsq
                (exWalls exOnePlane).m_params.params]
          ++ (if exPotential.needsDiameter then [Call.setDiameter 1 0] else [])
          ++ (if exPotential.needsCharge then [Call.setCharge 0 0] else [])
          ++ [Call.evalForceAndEnergy 0 0 true]) ∧
    ∃ r, evalForceEnergyAndVirial exPotential
        (((exWalls exOnePlane).setDiameter 1).setCharge 0) ⟨1, 2, 3⟩ 4 [5, 6, 7, 8, 9, 10]
        = some r ∧
      (∀ a b, Call.setDiameter a b ∈ r.calls →
        exPotential.needsDiameter = true ∧ a = 1 ∧ b = 0) ∧
      (∀ a b, Call.setCharge a b ∈ r.calls →
        exPotential.needsCharge = true ∧ a = 0 ∧ b = 0) :=
  c9_diameter_charge_calls exPotential (exWalls exOnePlane) 1 0 ⟨1, 2, 3⟩ 4
    [5, 6, 7, 8, 9, 10] rfl ⟨by decide, by decide, by decide⟩

/-- C10: on a six-element virial buffer and a collection within capacity the evaluation
returns, and every evalForceAndEnergy call it made on the potential, for every wall of
every kind, received the energy-shift flag true (and outputs initialised to zero). -/
theorem c10_energy_shift_always_true {W : WallData} (E : PairEvaluator)
    (self : EvaluatorWalls W E) (F0 : Scalar3) (e0 : Scalar) (v0 : List Scalar)
    (hv : v0.length = 6) (hcap : self.m_field.inCapacity) :
    ∃ r, evalForceEnergyAndVirial E self F0 e0 v0 = some r ∧
      ∀ force_divr pair_eng energy_shift,
        Call.evalForceAndEnergy force_divr pair_eng energy_shift ∈ r.calls →
          energy_shift = true ∧ force_divr = 0 ∧ pair_eng = 0 := by
  refine ⟨_, eval_eq E self F0 e0 v0 hv hcap, ?_⟩
  intro fd pe sh h
  obtain ⟨rsq, hr⟩ := mem_total_calls E _ _ _ h
  cases hD : E.needsDiameter <;> cases hC : E.needsCharge <;>
    simp [wallCalls, hD, hC] at hr ⊢
  all_goals exact ⟨hr.2.2, hr.1, hr.2.1⟩

/-- Worked example of C10 on the sphere-and-plane collection. -/
theorem c10_energy_shift_always_true_witness :
    ∃ r, evalForceEnergyAndVirial exPotential (exWalls exSphereAndPlane) ⟨1, 2, 3⟩ 4
        [5, 6, 7, 8, 9, 10] = some r ∧
      ∀ force_divr pair_eng energy_shift,
        Call.evalForceAndEnergy force_divr pair_eng energy_shift ∈ r.calls →
          energy_shift = true ∧ force_divr = 0 ∧ pair_eng = 0 :=
  c10_energy_shift_always_true exPotential (exWalls exSphereAndPlane) ⟨1, 2, 3⟩ 4
    [5, 6, 7, 8, 9, 10] rfl ⟨by decide, by decide, by decide⟩

/-- C11: make_wall_params(p, a, b) returns the bundle with params = p, rcutsq = a and
rminsq = b for every payload and every pair of scalars; it is a total function without any
check, so a negative threshold and rminsq > rcutsq are stored unchanged. -/
theorem c11_make_wall_params_stores_arguments (E : PairEvaluator) (p : E.param_type)
    (a b : Scalar) :
    (make_wall_params E p a b).params = p ∧ (make_wall_params E p a b).rcutsq = a ∧
      (make_wall_params E p a b).rminsq = b ∧
      (make_wall_params E p (-1) 5).rcutsq = -1 ∧ (make_wall_params E p (-1) 5).rminsq = 5 :=
  ⟨rfl, rfl, rfl, rfl, rfl⟩

/-- C12: EvaluatorWalls::getName is the string "walls_" followed by the potential's name and
nothing else: dropping its first 6 characters gives the potential's name back, and two
potentials get the same wall name exactly when they have the same name. -/
theorem c12_getName_prefix (E E₂ : PairEvaluator) :
    EvaluatorWalls.getName E = "walls_" ++ E.getName ∧
      (EvaluatorWalls.getName E).drop 6 = E.getName ∧
      (EvaluatorWalls.getName E).length = 6 + E.getName.length ∧
      (EvaluatorWalls.getName E = EvaluatorWalls.getName E₂ ↔ E.getName = E₂.getName) := by
  have hw : ("walls_" : String).data = ['w', 'a', 'l', 'l', 's', '_'] := rfl
  refine ⟨rfl, ?_, ?_, ?_⟩
  · rw [String.drop_eq]
    apply String.ext
    show (("walls_" : String) ++ E.getName).data.drop 6 = E.getName.data
    rw [String.data_append, hw]
    rfl
  · show (("walls_" : String) ++ E.getName).length = 6 + E.getName.length
    rw [String.length_append]
    rfl
  · constructor
    · intro heq
      apply String.ext
      have h : (("walls_" : String) ++ E.getName).data
          = (("walls_" : String) ++ E₂.getName).data := congrArg String.data heq
      rw [String.data_append, String.data_append] at h
      exact List.append_cancel_left h
    · intro heq
      show ("walls_" : String) ++ E.getName = ("walls_" : String) ++ E₂.getName
      rw [heq]

/-- C13: EvaluatorWalls::needsDiameter and EvaluatorWalls::needsCharge return exactly what
the wrapped potential's needsDiameter and needsCharge return. -/
theorem c13_needs_forwarded (E : PairEvaluator) :
    EvaluatorWalls.needsDiameter E = E.needsDiameter ∧
      EvaluatorWalls.needsCharge E = E.needsCharge :=
  ⟨rfl, rfl⟩

/-- C14 as stated fails for planes: the plane descriptors with inside = true and with
inside = false give the same collection, so the built plane does not carry the descriptor's
inside flag. -/
theorem c14_plane_inside_dropped_counterexample :
    (exPlaneGroup true).planes ≠ (exPlaneGroup false).planes ∧
    ∃ w, make_wall_field_params exWallData (exPlaneGroup true) = Except.ok w ∧
      make_wall_field_params exWallData (exPlaneGroup false) = Except.ok w := by
  refine ⟨by simp [exPlaneGroup], _,
    make_wall_field_params_ok exWallData (exPlaneGroup true) (by decide) (by decide)
      (by decide), ?_⟩
  rw [make_wall_field_params_plane_inside exWallData (exPlaneGroup false) (exPlaneGroup true)
    rfl rfl rfl]
  exact make_wall_field_params_ok exWallData (exPlaneGroup true) (by decide) (by decide)
    (by decide)

/-- C14 amended: when make_wall_field_params succeeds on descriptor lists shorter than 2^32,
each count is the length of its list and, index by index in the same order, a sphere is
built from (r, origin, inside), a cylinder from (r, origin, axis, inside) and a plane from
(origin, normal) only. -/
theorem c14_walls_built_in_order (W : WallData) (walls : PyWallGroup) (w : wall_type W)
    (hs : walls.spheres.length < 2 ^ 32) (hc : walls.cylinders.length < 2 ^ 32)
    (hp : walls.planes.length < 2 ^ 32)
    (hok : make_wall_field_params W walls = Except.ok w) :
    w.numSpheres = walls.spheres.length ∧ w.numCylinders = walls.cylinders.length ∧
      w.numPlanes = walls.planes.length ∧
      (∀ i d, walls.spheres[i]? = some d →
        readAt w.Spheres i = some (W.mkSphereWall d.r d._origin d.inside)) ∧
      (∀ i d, walls.cylinders[i]? = some d →
        readAt w.Cylinders i = some (W.mkCylinderWall d.r d._origin d._axis d.inside)) ∧
      (∀ i d, walls.planes[i]? = some d →
        readAt w.Planes i = some (W.mkPlaneWall d._origin d._normal)) := by
  have es := toUnsignedInt_of_lt _ hs
  have ec := toUnsignedInt_of_lt _ hc
  have ep := toUnsignedInt_of_lt _ hp
  rcases make_wall_field_params_cases W walls with h | ⟨a, b, c, h⟩
  · rw [h] at hok
    cases hok
  · rw [h] at hok
    injection hok with hw
    subst hw
    rw [es] at a
    rw [ec] at b
    rw [ep] at c
    simp only [es, ec, ep]
    refine ⟨trivial, trivial, trivial, ?_, ?_, ?_⟩
    · intro i d hd
      have hi : i < walls.spheres.length := (List.getElem?_eq_some_iff.mp hd).1
      exact readAt_fillArr _ _ _ i _ hi a (by simp [hd])
    · intro i d hd
      have hi : i < walls.cylinders.length := (List.getElem?_eq_some_iff.mp hd).1
      exact readAt_fillArr _ _ _ i _ hi b (by simp [hd])
    · intro i d hd
      have hi : i < walls.planes.length := (List.getElem?_eq_some_iff.mp hd).1
      exact readAt_fillArr _ _ _ i _ hi c (by simp [hd])

/-- Worked example of the amended C14: one sphere, one cylinder and two planes. -/
theorem c14_walls_built_in_order_witness :
    exBuilt.numSpheres = exGroup.spheres.length ∧
      exBuilt.numCylinders = exGroup.cylinders.length ∧
      exBuilt.numPlanes = exGroup.planes.length ∧
      (∀ i d, exGroup.spheres[i]? = some d →
        readAt exBuilt.Spheres i = some (exWallData.mkSphereWall d.r d._origin d.inside)) ∧
      (∀ i d, exGroup.cylinders[i]? = some d →
        readAt exBuilt.Cylinders i
          = some (exWallData.mkCylinderWall d.r d._origin d._axis d.inside)) ∧
      (∀ i d, exGroup.planes[i]? = some d →
        readAt exBuilt.Planes i = some (exWallData.mkPlaneWall d._origin d._normal)) :=
  c14_walls_built_in_order exWallData exGroup exBuilt (by decide) (by decide) (by decide)
    exGroup_built

/-- C15: under the invariant numSpheres <= 20, numCylinders <= 20, numPlanes <= 60 and with
a six-element virial buffer, every array access of evalForceEnergyAndVirial is in bounds
and the evaluation returns, for every position, bundle and potential; and
make_wall_field_params either ends with the runtime error of its capacity check or returns
a collection that satisfies the invariant (it never writes outside an array), on which the
evaluation returns. -/
theorem c15_accesses_in_bounds {W : WallData} (E : PairEvaluator) (self : EvaluatorWalls W E)
    (F0 : Scalar3) (e0 : Scalar) (v0 : List Scalar) (walls : PyWallGroup)
    (hv : v0.length = 6) (hcap : self.m_field.inCapacity) :
    (∃ r, evalForceEnergyAndVirial E self F0 e0 v0 = some r) ∧
    (match make_wall_field_params W walls with
      | Except.ok w => w.inCapacity ∧
          ∃ r, evalForceEnergyAndVirial E
            ⟨self.m_pos, w, self.m_params, self.di, self.qi⟩ F0 e0 v0 = some r
      | Except.error e => e = Fault.runtime_error "Error loading wall group.") := by
  refine ⟨⟨_, eval_eq E self F0 e0 v0 hv hcap⟩, ?_⟩
  rcases make_wall_field_params_cases W walls with h | ⟨a, b, c, h⟩
  · rw [h]
  · rw [h]
    exact ⟨⟨a, b, c⟩, _, eval_eq E _ F0 e0 v0 hv ⟨a, b, c⟩⟩

/-- Worked example of C15: evaluation over the one-plane collection and construction from
the example wall group. -/
theorem c15_accesses_in_bounds_witness :
    (∃ r, evalForceEnergyAndVirial exPotential (exWalls exOnePlane) ⟨1, 2, 3⟩ 4
      [5, 6, 7, 8, 9, 10] = some r) ∧
    (match make_wall_field_params exWallData exGroup with
      | Except.ok w => w.inCapacity ∧
          ∃ r, evalForceEnergyAndVirial exPotential
            ⟨(exWalls exOnePlane).m_pos, w, (exWalls exOnePlane).m_params,
              (exWalls exOnePlane).di, (exWalls exOnePlane).qi⟩ ⟨1, 2, 3⟩ 4
              [5, 6, 7, 8, 9, 10] = some r
      | Except.error e => e = Fault.runtime_error "Error loading wall group.") :=
  c15_accesses_in_bounds exPotential (exWalls exOnePlane) ⟨1, 2, 3⟩ 4 [5, 6, 7, 8, 9, 10]
    exGroup rfl ⟨by decide, by decide, by decide⟩

/-- C16: the rminsq guard is the comparison rsq >= rminsq. In a whole evaluation the
potential is constructed exactly once and its evalForceAndEnergy is called exactly once for
each wall with rsq >= rminsq, and a wall with rsq < rminsq causes no call at all; a wall
with rsq equal to rminsq is not skipped: the potential is invoked and, when it reports
evaluated, its force and energy are added. -/
theorem c16_guard_skips_only_below_rminsq {W : WallData} (E : PairEvaluator)
    (self : EvaluatorWalls W E) (F0 : Scalar3) (e0 : Scalar) (v0 : List Scalar)
    (hv : v0.length = 6) (hcap : self.m_field.inCapacity) :
    (∃ r, evalForceEnergyAndVirial E self F0 e0 v0 = some r ∧
      (r.calls.filter Call.isConstruct).length
        = ((displacements self.m_field self.m_pos).filter (fun dxv =>
            decide (dot (-(vec_to_scalar3 dxv)) (-(vec_to_scalar3 dxv))
              ≥ self.m_params.rminsq))).length ∧
      (r.calls.filter Call.isEval).length
        = ((displacements self.m_field self.m_pos).filter (fun dxv =>
            decide (dot (-(vec_to_scalar3 dxv)) (-(vec_to_scalar3 dxv))
              ≥ self.m_params.rminsq))).length) ∧
    (∀ (dxv : vec3) (o : Outputs E.param_type),
      dot (-(vec_to_scalar3 dxv)) (-(vec_to_scalar3 dxv)) < self.m_params.rminsq →
        wallBody E self true dxv o = some o) ∧
    (∀ (dxv : vec3) (o : Outputs E.param_type) (f e : Scalar), o.virial.length = 6 →
      dot (-(vec_to_scalar3 dxv)) (-(vec_to_scalar3 dxv)) = self.m_params.rminsq →
      E.evalForceAndEnergy (wallEvaluator E self
        (dot (-(vec_to_scalar3 dxv)) (-(vec_to_scalar3 dxv)))) 0 0 true = (true, f, e) →
      ∃ o' cs, wallBody E self true dxv o = some o' ∧
        o'.F = o.F + (-(vec_to_scalar3 dxv)) * f ∧ o'.energy = o.energy + e ∧
        o'.calls = o.calls ++ cs ∧ (cs.filter Call.isConstruct).length = 1 ∧
        (cs.filter Call.isEval).length = 1) := by
  refine ⟨⟨_, eval_eq E self F0 e0 v0 hv hcap,
      count_total_calls E self _ (wallCalls_one_construct E self) _,
      count_total_calls E self _ (wallCalls_one_eval E self) _⟩,
    fun dxv o h => wallBody_skip E self true dxv o h, ?_⟩
  intro dxv o f e ho heq hev
  obtain ⟨F, en, vir, cs⟩ := o
  obtain ⟨a, b, c, d, e', f', rfl⟩ := list_length_six vir ho
  have hmin : self.m_params.rminsq ≤ rsqOf dxv := le_of_eq heq.symm
  have hev2 : wallEval E self (rsqOf dxv) = (true, f, e) := hev
  refine ⟨_, wallCalls E self (rsqOf dxv), wallBody_eq E self dxv F en a b c d e' f' cs,
    ?_, ?_, ?_, wallCalls_one_construct E self _, wallCalls_one_eval E self _⟩
  · simp [termForce, contributes, hmin, hev2, separation]
  · simp [termEnergy, contributes, hmin, hev2]
  · simp [termCalls, hmin]

/-- Worked example of C16 on the sphere-and-plane collection. -/
theorem c16_guard_skips_only_below_rminsq_witness :
    (∃ r, evalForceEnergyAndVirial exPotential (exWalls exSphereAndPlane) ⟨1, 2, 3⟩ 4
        [5, 6, 7, 8, 9, 10] = some r ∧
      (r.calls.filter Call.isConstruct).length
        = ((displacements (exWalls exSphereAndPlane).m_field
            (exWalls exSphereAndPlane).m_pos).filter (fun dxv =>
            decide (dot (-(vec_to_scalar3 dxv)) (-(vec_to_scalar3 dxv))
              ≥ (exWalls exSphereAndPlane).m_params.rminsq))).length ∧
      (r.calls.filter Call.isEval).length
        = ((displacements (exWalls exSphereAndPlane).m_field
            (exWalls exSphereAndPlane).m_pos).filter (fun dxv =>
            decide (dot (-(vec_to_scalar3 dxv)) (-(vec_to_scalar3 dxv))
              ≥ (exWalls exSphereAndPlane).m_params.rminsq))).length) ∧
    (∀ (dxv : vec3) (o : Outputs exPotential.param_type),
      dot (-(vec_to_scalar3 dxv)) (-(vec_to_scalar3 dxv))
          < (exWalls exSphereAndPlane).m_params.rminsq →
        wallBody exPotential (exWalls exSphereAndPlane) true dxv o = some o) ∧
    (∀ (dxv : vec3) (o : Outputs exPotential.param_type) (f e : Scalar),
      o.virial.length = 6 →
      dot (-(vec_to_scalar3 dxv)) (-(vec_to_scalar3 dxv))
        = (exWalls exSphereAndPlane).m_params.rminsq →
      exPotential.evalForceAndEnergy (wallEvaluator exPotential (exWalls exSphereAndPlane)
        (dot (-(vec_to_scalar3 dxv)) (-(vec_to_scalar3 dxv)))) 0 0 true = (true, f, e) →
      ∃ o' cs, wallBody exPotential (exWalls exSphereAndPlane) true dxv o = some o' ∧
        o'.F = o.F + (-(vec_to_scalar3 dxv)) * f ∧ o'.energy = o.energy + e ∧
        o'.calls = o.calls ++ cs ∧ (cs.filter Call.isConstruct).length = 1 ∧
        (cs.filter Call.isEval).length = 1) :=
  c16_guard_skips_only_below_rminsq exPotential (exWalls exSphereAndPlane) ⟨1, 2, 3⟩ 4
    [5, 6, 7, 8, 9, 10] rfl ⟨by decide, by decide, by decide⟩

/-- C17: in a whole evaluation every potential object is constructed with
rsq = dot(dx, dx), which is the squared Euclidean length of the geometry displacement of a
wall that passes the guard, together with the bundle's rcutsq and params; and for a
collection holding a single plane whose displacement from the particle is a unit vector n
(the particle is at origin + normal), with rminsq <= 1, the potential is constructed with
rsq = 1 exactly. -/
theorem c17_rsq_handed_to_potential {W : WallData} (E : PairEvaluator)
    (self plane : EvaluatorWalls W E) (F0 : Scalar3) (e0 : Scalar) (v0 : List Scalar)
    (n : vec3) (hv : v0.length = 6) (hcap : self.m_field.inCapacity)
    (h1 : plane.m_field.holdsOne WallKind.plane)
    (hd : plane.m_field.firstDisplacement WallKind.plane plane.m_pos = n)
    (hn : n.x * n.x + n.y * n.y + n.z * n.z = 1) (hmin : plane.m_params.rminsq ≤ 1) :
    (∃ r, evalForceEnergyAndVirial E self F0 e0 v0 = some r ∧
      ∀ rsq rcutsq params, Call.construct rsq rcutsq params ∈ r.calls →
        rcutsq = self.m_params.rcutsq ∧ params = self.m_params.params ∧
        ∃ dxv, dxv ∈ displacements self.m_field self.m_pos ∧
          rsq = dot (-(vec_to_scalar3 dxv)) (-(vec_to_scalar3 dxv)) ∧
          rsq = dxv.x * dxv.x + dxv.y * dxv.y + dxv.z * dxv.z ∧
          rsq ≥ self.m_params.rminsq) ∧
    (∃ r rest, evalForceEnergyAndVirial E plane F0 e0 v0 = some r ∧
      r.calls = Call.construct 1 plane.m_params.rcutsq plane.m_params.params :: rest ∧
      ∀ c, c ∈ rest → c.isConstruct = false) := by
  constructor
  · refine ⟨_, eval_eq E self F0 e0 v0 hv hcap, ?_⟩
    intro rsq rcutsq params h
    obtain ⟨d, hmem, hguard, hc⟩ := mem_total_calls_wall E self _ _ h
    have hc2 : rsq = rsqOf d ∧ rcutsq = self.m_params.rcutsq
        ∧ params = self.m_params.params := by
      cases hD : E.needsDiameter <;> cases hC : E.needsCharge <;>
        simpa [wallCalls, hD, hC] using hc
    obtain ⟨e1, e2, e3⟩ := hc2
    subst e1
    exact ⟨e2, e3, d, hmem, rfl, rsqOf_eq d, hguard⟩
  · have hr : rsqOf (plane.m_field.firstDisplacement WallKind.plane plane.m_pos) = 1 := by
      rw [hd, rsqOf_eq, hn]
    rw [eval_eq E plane F0 e0 v0 hv (inCapacity_holdsOne _ _ h1),
      displacements_holdsOne _ WallKind.plane _ h1]
    refine ⟨_, (if E.needsDiameter then [Call.setDiameter plane.di 0] else [])
      ++ (if E.needsCharge then [Call.setCharge plane.qi 0] else [])
      ++ [Call.evalForceAndEnergy 0 0 true], rfl, ?_, ?_⟩
    · simp [total, termCalls, hr, hmin, wallCalls]
    · intro c hc
      cases hD : E.needsDiameter <;> cases hC : E.needsCharge <;>
        simp [hD, hC] at hc <;> rcases hc with h | h | h <;> subst_vars <;> rfl

/-- Worked example of C17: the general part on the sphere-and-plane collection, the plane
part on the plane with origin (1, 2, 3) and unit normal (3/5, 4/5, 0) and the particle at
origin + normal. -/
theorem c17_rsq_handed_to_potential_witness :
    (∃ r, evalForceEnergyAndVirial exPotential (exWalls exSphereAndPlane) ⟨1, 2, 3⟩ 4
        [5, 6, 7, 8, 9, 10] = some r ∧
      ∀ rsq rcutsq params, Call.construct rsq rcutsq params ∈ r.calls →
        rcutsq = (exWalls exSphereAndPlane).m_params.rcutsq ∧
        params = (exWalls exSphereAndPlane).m_params.params ∧
        ∃ dxv, dxv ∈ displacements (exWalls exSphereAndPlane).m_field
            (exWalls exSphereAndPlane).m_pos ∧
          rsq = dot (-(vec_to_scalar3 dxv)) (-(vec_to_scalar3 dxv)) ∧
          rsq = dxv.x * dxv.x + dxv.y * dxv.y + dxv.z * dxv.z ∧
          rsq ≥ (exWalls exSphereAndPlane).m_params.rminsq) ∧
    (∃ r rest, evalForceEnergyAndVirial exPotential exTiltedWalls ⟨1, 2, 3⟩ 4
        [5, 6, 7, 8, 9, 10] = some r ∧
      r.calls = Call.construct 1 exTiltedWalls.m_params.rcutsq
        exTiltedWalls.m_params.params :: rest ∧
      ∀ c, c ∈ rest → c.isConstruct = false) :=
  c17_rsq_handed_to_potential exPotential (exWalls exSphereAndPlane) exTiltedWalls
    ⟨1, 2, 3⟩ 4 [5, 6, 7, 8, 9, 10] ⟨3 / 5, 4 / 5, 0⟩ rfl ⟨by decide, by decide, by decide⟩
    ⟨rfl, rfl, rfl⟩
    exTiltedWalls_displacement
    (by norm_num)
    (by norm_num [exTiltedWalls, exParams, make_wall_params, EvaluatorWalls.ctor,
      EvaluatorWalls.setDiameter, EvaluatorWalls.setCharge])

/-- C18: two collections with the same three counts that agree on every entry below the
respective count give the same result (force, energy, virial, and the same calls on the
potential) for every position, bundle and potential, whatever the unused slots hold. -/
theorem c18_unused_slots_irrelevant {W : WallData} (E : PairEvaluator) (pos : Scalar3)
    (p : EvaluatorWalls.param_type E) (di qi : Scalar) (A B : wall_type W)
    (F0 : Scalar3) (e0 : Scalar) (v0 : List Scalar) (hv : v0.length = 6)
    (hcap : A.inCapacity)
    (hns : A.numSpheres = B.numSpheres) (hnc : A.numCylinders = B.numCylinders)
    (hnp : A.numPlanes = B.numPlanes)
    (hs : ∀ (k : Nat) (hk : k < MAX_N_SWALLS), k < A.numSpheres →
      A.Spheres ⟨k, hk⟩ = B.Spheres ⟨k, hk⟩)
    (hc : ∀ (k : Nat) (hk : k < MAX_N_CWALLS), k < A.numCylinders →
      A.Cylinders ⟨k, hk⟩ = B.Cylinders ⟨k, hk⟩)
    (hp : ∀ (k : Nat) (hk : k < MAX_N_PWALLS), k < A.numPlanes →
      A.Planes ⟨k, hk⟩ = B.Planes ⟨k, hk⟩) :
    ∃ r, evalForceEnergyAndVirial E ⟨pos, A, p, di, qi⟩ F0 e0 v0 = some r ∧
      evalForceEnergyAndVirial E ⟨pos, B, p, di, qi⟩ F0 e0 v0 = some r := by
  have hcapB : B.inCapacity := by
    obtain ⟨a, b, c⟩ := hcap
    exact ⟨hns ▸ a, hnc ▸ b, hnp ▸ c⟩
  refine ⟨_, eval_eq E _ F0 e0 v0 hv hcap, ?_⟩
  rw [eval_eq E _ F0 e0 v0 hv hcapB,
    total_congr E ⟨pos, B, p, di, qi⟩ ⟨pos, A, p, di, qi⟩ rfl rfl rfl]
  have hd : displacements B pos = displacements A pos := by
    simp only [displacements, wall_type.sphereList, wall_type.cylinderList,
      wall_type.planeList, ← hns, ← hnc, ← hnp]
    rw [firstN_congr A.Spheres B.Spheres _ hs, firstN_congr A.Cylinders B.Cylinders _ hc,
      firstN_congr A.Planes B.Planes _ hp]
  simp only [hd]

/-- Worked example of C18: the one-plane collection and the same collection with other
walls in the unused slots. -/
theorem c18_unused_slots_irrelevant_witness :
    ∃ r, evalForceEnergyAndVirial exPotential ⟨⟨0, 0, 1⟩, exOnePlane, exParams, 1, 0⟩
        ⟨1, 2, 3⟩ 4 [5, 6, 7, 8, 9, 10] = some r ∧
      evalForceEnergyAndVirial exPotential ⟨⟨0, 0, 1⟩, exOnePlaneUsedSlots, exParams, 1, 0⟩
        ⟨1, 2, 3⟩ 4 [5, 6, 7, 8, 9, 10] = some r :=
  c18_unused_slots_irrelevant exPotential ⟨0, 0, 1⟩ exParams 1 0 exOnePlane
    exOnePlaneUsedSlots ⟨1, 2, 3⟩ 4 [5, 6, 7, 8, 9, 10] rfl ⟨by decide, by decide, by decide⟩
    rfl rfl rfl
    (fun k _ h => absurd h (Nat.not_lt_zero k))
    (fun k _ h => absurd h (Nat.not_lt_zero k))
    (fun k hk h => by
      have h0 : k = 0 := Nat.lt_one_iff.mp h
      subst h0
      rfl)

/-- C19: replacing the displacement of a wall by its negation negates the wall's
contribution to the force and leaves its contribution to the energy and to the six virial
components (and the calls made on the potential) unchanged; for two collections holding one
wall each whose displacements are negations of one another, evaluated with the same bundle,
diameter and charge, the returned forces are negations of one another and the returned
energies and virials are the same. The potential's outputs are a function of rsq, rcutsq,
params, the diameters, the charges and the shift flag, as for every PairEvaluator. -/
theorem c19_negated_displacement {W : WallData} (E : PairEvaluator)
    (A B : EvaluatorWalls W E) (k : WallKind) (F0 : Scalar3) (e0 : Scalar) (v0 : List Scalar)
    (hv : v0.length = 6) (hA : A.m_field.holdsOne k) (hB : B.m_field.holdsOne k)
    (hp : B.m_params = A.m_params) (hdi : B.di = A.di) (hqi : B.qi = A.qi)
    (hneg : B.m_field.firstDisplacement k B.m_pos
      = -(A.m_field.firstDisplacement k A.m_pos)) :
    (∃ rA rB, evalForceEnergyAndVirial E A F0 e0 v0 = some rA ∧
      evalForceEnergyAndVirial E B F0 e0 v0 = some rB ∧
      rB.F = -rA.F ∧ rB.energy = rA.energy ∧ rB.virial = rA.virial) ∧
    (∀ (dxv : vec3) (o : Outputs E.param_type), o.virial.length = 6 →
      ∃ (dF : Scalar3) (dE : Scalar) (dV : List Scalar) (cs : List (Call E.param_type)),
        wallBody E A true dxv o = some ⟨o.F + dF, o.energy + dE,
          List.zipWith (fun a b => a + b) o.virial dV, o.calls ++ cs⟩ ∧
        wallBody E A true (-dxv) o = some ⟨o.F + -dF, o.energy + dE,
          List.zipWith (fun a b => a + b) o.virial dV, o.calls ++ cs⟩) := by
  constructor
  · refine ⟨_, _, eval_eq E A F0 e0 v0 hv (inCapacity_holdsOne _ k hA),
      eval_eq E B F0 e0 v0 hv (inCapacity_holdsOne _ k hB), ?_⟩
    rw [displacements_holdsOne _ k _ hA, displacements_holdsOne _ k _ hB, hneg,
      total_congr E B A hp hdi hqi]
    obtain ⟨h1, h2, h3, _⟩ := total_single_neg E A (A.m_field.firstDisplacement k A.m_pos)
    exact ⟨h1, h2, h3⟩
  · intro dxv o ho
    obtain ⟨F, en, vir, cs⟩ := o
    obtain ⟨a, b, c, d, e, f, rfl⟩ := list_length_six vir ho
    refine ⟨separation dxv * termForce E A dxv, termEnergy E A dxv,
      [termForce E A dxv * (separation dxv).x * (separation dxv).x,
       termForce E A dxv * (separation dxv).x * (separation dxv).y,
       termForce E A dxv * (separation dxv).x * (separation dxv).z,
       termForce E A dxv * (separation dxv).y * (separation dxv).y,
       termForce E A dxv * (separation dxv).y * (separation dxv).z,
       termForce E A dxv * (separation dxv).z * (separation dxv).z],
      termCalls E A dxv, ?_, ?_⟩
    · rw [wallBody_eq]
      simp
    · rw [wallBody_eq, termForce_neg, termEnergy_neg, termCalls_neg, separation_neg]
      simp [Scalar3.ext_iff3, Scalar3.add_x, Scalar3.add_y, Scalar3.add_z, Scalar3.mul_x,
        Scalar3.mul_y, Scalar3.mul_z, Scalar3.neg_x, Scalar3.neg_y, Scalar3.neg_z]

/-- Worked example of C19: a sphere centred at the origin and a sphere centred at
(0, 0, 2), seen from (0, 0, 1). -/
theorem c19_negated_displacement_witness :
    (∃ rA rB, evalForceEnergyAndVirial exPotential (exWalls exOneSphere) ⟨1, 2, 3⟩ 4
        [5, 6, 7, 8, 9, 10] = some rA ∧
      evalForceEnergyAndVirial exPotential (exWalls exMirrorSphere) ⟨1, 2, 3⟩ 4
        [5, 6, 7, 8, 9, 10] = some rB ∧
      rB.F = -rA.F ∧ rB.energy = rA.energy ∧ rB.virial = rA.virial) ∧
    (∀ (dxv : vec3) (o : Outputs exPotential.param_type), o.virial.length = 6 →
      ∃ (dF : Scalar3) (dE : Scalar) (dV : List Scalar)
        (cs : List (Call exPotential.param_type)),
        wallBody exPotential (exWalls exOneSphere) true dxv o = some ⟨o.F + dF, o.energy + dE,
          List.zipWith (fun a b => a + b) o.virial dV, o.calls ++ cs⟩ ∧
        wallBody exPotential (exWalls exOneSphere) true (-dxv) o = some ⟨o.F + -dF,
          o.energy + dE, List.zipWith (fun a b => a + b) o.virial dV, o.calls ++ cs⟩) :=
  c19_negated_displacement exPotential (exWalls exOneSphere) (exWalls exMirrorSphere)
    WallKind.sphere ⟨1, 2, 3⟩ 4 [5, 6, 7, 8, 9, 10] rfl ⟨rfl, rfl, rfl⟩ ⟨rfl, rfl, rfl⟩
    rfl rfl rfl exMirrorSphere_displacement

/-- C20 as stated fails in the code's double arithmetic: for a collection holding one wall
with dx = (-0.1, -0.2, -0.3) that passes the guard and is evaluated with force_divr = 0.1,
the trace virial[0] + virial[3] + virial[5] is 0x1.cac083126e979p-7 and force_divr * rsq is
0x1.cac083126e97ap-7, one unit in the last place apart (the trace does equal dot(F, dx)
there). -/
theorem c20_trace_rounding_counterexample :
    Dbl.ge (dotIn doubleArith exDoubleDx exDoubleDx) ⟨0, 0⟩ = true ∧
    Dbl.add (Dbl.add exDoubleRun.virial.xx exDoubleRun.virial.yy) exDoubleRun.virial.zz
      ≠ Dbl.mul dbl_0_1 (dotIn doubleArith exDoubleDx exDoubleDx) ∧
    Dbl.toRat
        (Dbl.add (Dbl.add exDoubleRun.virial.xx exDoubleRun.virial.yy) exDoubleRun.virial.zz)
      ≠ Dbl.toRat (Dbl.mul dbl_0_1 (dotIn doubleArith exDoubleDx exDoubleDx)) ∧
    Dbl.add (Dbl.add exDoubleRun.virial.xx exDoubleRun.virial.yy) exDoubleRun.virial.zz
      = dotIn doubleArith exDoubleRun.F exDoubleDx := by
  rw [exDoubleRun_trace, exDoubleRun_force_times_rsq, exDoubleRun_dot_force, exDoubleRun_rsq]
  refine ⟨by decide, by decide, ?_, rfl⟩
  norm_num [Dbl.toRat, zpow_neg]

/-- C20 amended: in exact arithmetic, the trace virial[0] + virial[3] + virial[5] of the
returned virial is the sum over the contributing walls of force_divr * rsq; for a
collection holding a single contributing wall, evaluated with force_divr = f, it equals
f * rsq and dot(F, dx), the returned force dotted with the separation vector. -/
theorem c20_virial_trace {W : WallData} (E : PairEvaluator)
    (self single : EvaluatorWalls W E) (k : WallKind) (F0 : Scalar3) (e0 : Scalar)
    (v0 : List Scalar) (f e : Scalar) (dx : Scalar3) (hv : v0.length = 6)
    (hcap : self.m_field.inCapacity) (h1 : single.m_field.holdsOne k)
    (hdx : dx = -(vec_to_scalar3 (single.m_field.firstDisplacement k single.m_pos)))
    (hmin : dot dx dx ≥ single.m_params.rminsq)
    (hev : wallEval E single (dot dx dx) = (true, f, e)) :
    (∃ r xx xy xz yy yz zz, evalForceEnergyAndVirial E self F0 e0 v0 = some r ∧
      r.virial = [xx, xy, xz, yy, yz, zz] ∧
      xx + yy + zz = (((displacements self.m_field self.m_pos).filter
          (contributes E self)).map
          (fun dxv => (wallEval E self (dot (-(vec_to_scalar3 dxv)) (-(vec_to_scalar3 dxv)))).2.1
            * dot (-(vec_to_scalar3 dxv)) (-(vec_to_scalar3 dxv)))).sum) ∧
    (∃ r xx xy xz yy yz zz, evalForceEnergyAndVirial E single F0 e0 v0 = some r ∧
      r.virial = [xx, xy, xz, yy, yz, zz] ∧
      xx + yy + zz = f * dot dx dx ∧ xx + yy + zz = dot r.F dx) := by
  constructor
  · exact ⟨_, _, _, _, _, _, _, eval_eq E self F0 e0 v0 hv hcap, rfl, trace_total E self _⟩
  · subst hdx
    refine ⟨_, _, _, _, _, _, _, eval_single E single k F0 e0 v0 f e hv h1 hmin hev, rfl,
      ?_, ?_⟩
    · simp only [dot, separation]
      ring
    · simp only [dot, separation, Scalar3.mul_x, Scalar3.mul_y, Scalar3.mul_z]
      ring

/-- Worked example of C20: the general part on the sphere-and-plane collection, the
single-wall part on the one-plane collection (f = 4, dx = (0, 0, -1)). -/
theorem c20_virial_trace_witness :
    (∃ r xx xy xz yy yz zz, evalForceEnergyAndVirial exPotential (exWalls exSphereAndPlane)
        ⟨1, 2, 3⟩ 4 [5, 6, 7, 8, 9, 10] = some r ∧
      r.virial = [xx, xy, xz, yy, yz, zz] ∧
      xx + yy + zz = (((displacements (exWalls exSphereAndPlane).m_field
          (exWalls exSphereAndPlane).m_pos).filter
          (contributes exPotential (exWalls exSphereAndPlane))).map
          (fun dxv => (wallEval exPotential (exWalls exSphereAndPlane)
              (dot (-(vec_to_scalar3 dxv)) (-(vec_to_scalar3 dxv)))).2.1
            * dot (-(vec_to_scalar3 dxv)) (-(vec_to_scalar3 dxv)))).sum) ∧
    (∃ r xx xy xz yy yz zz, evalForceEnergyAndVirial exPotential (exWalls exOnePlane)
        ⟨1, 2, 3⟩ 4 [5, 6, 7, 8, 9, 10] = some r ∧
      r.virial = [xx, xy, xz, yy, yz, zz] ∧
      xx + yy + zz = 4 * dot (⟨0, 0, -1⟩ : Scalar3) ⟨0, 0, -1⟩ ∧
      xx + yy + zz = dot r.F ⟨0, 0, -1⟩) :=
  c20_virial_trace exPotential (exWalls exSphereAndPlane) (exWalls exOnePlane)
    WallKind.plane ⟨1, 2, 3⟩ 4 [5, 6, 7, 8, 9, 10] 4 (-16) ⟨0, 0, -1⟩ rfl
    ⟨by decide, by decide, by decide⟩ ⟨rfl, rfl, rfl⟩ exOnePlane_separation
    (exOnePlane_separation ▸ exOnePlane_guard) (exOnePlane_separation ▸ exOnePlane_eval)

/-- C21: if the potential reports needsDiameter = false, evalForceEnergyAndVirial returns
the same result whatever diameter the wall evaluator holds (left by the constructor or
stored by setDiameter), and no setDiameter call is made on the potential; likewise, if it
reports needsCharge = false, the result is the same whatever charge is held and no setCharge
call is made. -/
theorem c21_unneeded_diameter_charge_ignored {W : WallData} (Ed Eq : PairEvaluator)
    (sd : EvaluatorWalls W Ed) (sq : EvaluatorWalls W Eq) (d₁ d₂ q₁ q₂ : Scalar)
    (F0 : Scalar3) (e0 : Scalar) (v0 : List Scalar) (hv : v0.length = 6)
    (hcd : sd.m_field.inCapacity) (hcq : sq.m_field.inCapacity)
    (hd : Ed.needsDiameter = false) (hq : Eq.needsCharge = false) :
    (∃ r, evalForceEnergyAndVirial Ed sd F0 e0 v0 = some r ∧
      evalForceEnergyAndVirial Ed (sd.setDiameter d₁) F0 e0 v0 = some r ∧
      evalForceEnergyAndVirial Ed (sd.setDiameter d₂) F0 e0 v0 = some r ∧
      ∀ a b, Call.setDiameter a b ∉ r.calls) ∧
    (∃ r, evalForceEnergyAndVirial Eq sq F0 e0 v0 = some r ∧
      evalForceEnergyAndVirial Eq (sq.setCharge q₁) F0 e0 v0 = some r ∧
      evalForceEnergyAndVirial Eq (sq.setCharge q₂) F0 e0 v0 = some r ∧
      ∀ a b, Call.setCharge a b ∉ r.calls) := by
  constructor
  · refine ⟨_, eval_eq Ed sd F0 e0 v0 hv hcd, ?_, ?_, ?_⟩
    · rw [eval_eq Ed (sd.setDiameter d₁) F0 e0 v0 hv hcd,
        total_congr_diameter Ed (sd.setDiameter d₁) sd hd rfl rfl]
      rfl
    · rw [eval_eq Ed (sd.setDiameter d₂) F0 e0 v0 hv hcd,
        total_congr_diameter Ed (sd.setDiameter d₂) sd hd rfl rfl]
      rfl
    · intro a b h
      obtain ⟨rsq, hr⟩ := mem_total_calls Ed _ _ _ h
      cases hC : Ed.needsCharge <;> simp [wallCalls, hd, hC] at hr
  · refine ⟨_, eval_eq Eq sq F0 e0 v0 hv hcq, ?_, ?_, ?_⟩
    · rw [eval_eq Eq (sq.setCharge q₁) F0 e0 v0 hv hcq,
        total_congr_charge Eq (sq.setCharge q₁) sq hq rfl rfl]
      rfl
    · rw [eval_eq Eq (sq.setCharge q₂) F0 e0 v0 hv hcq,
        total_congr_charge Eq (sq.setCharge q₂) sq hq rfl rfl]
      rfl
    · intro a b h
      obtain ⟨rsq, hr⟩ := mem_total_calls Eq _ _ _ h
      cases hD : Eq.needsDiameter <;> simp [wallCalls, hq, hD] at hr

/-- Worked example of C21: the potential that needs only the charge, with diameters 3 (as
constructed), 10 and -2; the potential that needs only the diameter, with charges 0, 10
and -2; both over the one-plane collection. -/
theorem c21_unneeded_diameter_charge_ignored_witness :
    (∃ r, evalForceEnergyAndVirial exChargePotential exChargeWalls ⟨1, 2, 3⟩ 4
        [5, 6, 7, 8, 9, 10] = some r ∧
      evalForceEnergyAndVirial exChargePotential (exChargeWalls.setDiameter 10) ⟨1, 2, 3⟩ 4
        [5, 6, 7, 8, 9, 10] = some r ∧
      evalForceEnergyAndVirial exChargePotential (exChargeWalls.setDiameter (-2)) ⟨1, 2, 3⟩ 4
        [5, 6, 7, 8, 9, 10] = some r ∧
      ∀ a b, Call.setDiameter a b ∉ r.calls) ∧
    (∃ r, evalForceEnergyAndVirial exPotential (exWalls exOnePlane) ⟨1, 2, 3⟩ 4
        [5, 6, 7, 8, 9, 10] = some r ∧
      evalForceEnergyAndVirial exPotential ((exWalls exOnePlane).setCharge 10) ⟨1, 2, 3⟩ 4
        [5, 6, 7, 8, 9, 10] = some r ∧
      evalForceEnergyAndVirial exPotential ((exWalls exOnePlane).setCharge (-2)) ⟨1, 2, 3⟩ 4
        [5, 6, 7, 8, 9, 10] = some r ∧
      ∀ a b, Call.setCharge a b ∉ r.calls) :=
  c21_unneeded_diameter_charge_ignored exChargePotential exPotential exChargeWalls
    (exWalls exOnePlane) 10 (-2) 10 (-2) ⟨1, 2, 3⟩ 4 [5, 6, 7, 8, 9, 10] rfl
    ⟨by decide, by decide, by decide⟩ ⟨by decide, by decide, by decide⟩ rfl rfl

end Hoomd
